import Mathlib

/-!
# Verification of the trading-strategy engine of `trading_app.py`

Shallow embedding of the deterministic numeric pipeline of
`EnhancedTradingStrategy` (file `src/trading_app.py`): indicator
computation (`calculate_indicators`), signal generation
(`generate_signals`), backtest simulation (`execute_backtest`) and
performance aggregation (`calculate_metrics`).

Modelling conventions:
* Prices, volumes and money amounts are rationals (`ℚ`); the Python code
  uses IEEE floats, but every claim under study is about exact values and
  the counterexamples below are chosen away from representation
  boundaries.
* A pandas column value that would be `NaN` (an indicator whose rolling
  window is not yet full) is modelled as `none : Option ℚ`.  A float
  comparison with `NaN` is `False` in Python; correspondingly every
  predicate below returns `false` when one of its inputs is `none`.
* `pandas.Series.rolling(w).mean()` yields a defined value at position
  `t` exactly when `w ≤ t+1` (window full) and the window contains no
  `NaN`; all series we take rolling means of are `NaN`-free, so only the
  window condition appears.
* Python `int(x)` truncates toward zero (`pyInt`); Python `round(x, 2)`
  rounds half to even (`pyRound2`).
* Dates are modelled as integer day numbers; `(d2 - d1).days = d2 - d1`.
-/

namespace TradingModel

/-- One OHLCV bar of the input price series (a row of `self.data`). -/
structure PricePoint where
  date : ℤ
  open' : ℚ
  high : ℚ
  low : ℚ
  close : ℚ
  volume : ℚ
deriving DecidableEq, Repr

/-- The configuration accepted by `EnhancedTradingStrategy.__init__`
(the fields that the numeric core actually reads). -/
structure Config where
  short_window : ℕ
  long_window : ℕ
  initial_capital : ℚ
  risk_per_trade : ℚ
  stop_loss_pct : ℚ
deriving DecidableEq, Repr

/-- Python `int(q)`: truncation toward zero. -/
def pyInt (q : ℚ) : ℤ := if 0 ≤ q then ⌊q⌋ else -⌊-q⌋

/-- Python `round(q)`: round half to even (banker's rounding). -/
def pyRound (q : ℚ) : ℤ :=
  let f := ⌊q⌋
  if q - f < 1/2 then f
  else if (1:ℚ)/2 < q - f then f + 1
  else if f % 2 = 0 then f else f + 1

/-- Python `round(q, 2)`. -/
def pyRound2 (q : ℚ) : ℚ := (pyRound (q * 100) : ℚ) / 100

/-- Python `round(q, 1)`. -/
def pyRound1 (q : ℚ) : ℚ := (pyRound (q * 10) : ℚ) / 10

/-- The `Close` column. -/
def closes (s : List PricePoint) : List ℚ := s.map (·.close)

/-- The `Volume` column. -/
def volumes (s : List PricePoint) : List ℚ := s.map (·.volume)

/-- The index (dates) of `self.data`, as integer day numbers. -/
def dates (s : List PricePoint) : List ℤ := s.map (·.date)

/-- `xs.rolling(window=w).mean()` at position `t`: defined once the
window is full (`w ≤ t+1`) and `t` is in range, else `NaN`. -/
def rollingMean (w : ℕ) (xs : List ℚ) (t : ℕ) : Option ℚ :=
  if w ≤ t + 1 ∧ t < xs.length then
    some (((xs.drop (t + 1 - w)).take w).sum / w)
  else none

/-- `Close.diff()` without its leading `NaN`: `deltas[t] = close[t+1] - close[t]`. -/
def deltas (s : List PricePoint) : List ℚ :=
  List.zipWith (fun a b => a - b) ((closes s).drop 1) (closes s)

/-- `delta.where(delta > 0, 0)`: the leading `NaN` of `diff()` fails the
`> 0` test and is replaced by `0`, so the gain series is `NaN`-free. -/
def gains (s : List PricePoint) : List ℚ :=
  match s with
  | [] => []
  | _ :: _ => 0 :: (deltas s).map (fun d => max d 0)

/-- `-delta.where(delta < 0, 0)`, analogously `NaN`-free. -/
def losses (s : List PricePoint) : List ℚ :=
  match s with
  | [] => []
  | _ :: _ => 0 :: (deltas s).map (fun d => max (-d) 0)

/-- The true-range column
`max(High-Low, |High-prev Close|, |Low-prev Close|)`; at the first bar
`DataFrame.max(axis=1)` skips the two `NaN` entries and yields `High-Low`. -/
def trueRanges (s : List PricePoint) : List ℚ :=
  match s with
  | [] => []
  | b0 :: _ =>
    (b0.high - b0.low) ::
      List.zipWith (fun b c => max (b.high - b.low) (max |b.high - c| |b.low - c|))
        (s.drop 1) (closes s)

/-- The `Short_MA` column at bar `t`. -/
def Short_MA (s : List PricePoint) (cfg : Config) (t : ℕ) : Option ℚ :=
  rollingMean cfg.short_window (closes s) t

/-- The `Long_MA` column at bar `t`. -/
def Long_MA (s : List PricePoint) (cfg : Config) (t : ℕ) : Option ℚ :=
  rollingMean cfg.long_window (closes s) t

/-- The `ATR` column at bar `t`. -/
def ATR (s : List PricePoint) (t : ℕ) : Option ℚ :=
  rollingMean 14 (trueRanges s) t

/-- 14-bar rolling average gain. -/
def avg_gain (s : List PricePoint) (t : ℕ) : Option ℚ :=
  rollingMean 14 (gains s) t

/-- 14-bar rolling average loss. -/
def avg_loss (s : List PricePoint) (t : ℕ) : Option ℚ :=
  rollingMean 14 (losses s) t

/-- The `RSI` column at bar `t`.  The code computes
`100 - 100/(1 + gain/loss)` with float semantics: when the window is not
full the result is `NaN`; when `avg_loss > 0` it is an ordinary number;
when `avg_loss = 0` and `avg_gain > 0` the quotient is `+inf` and the
result is exactly `100.0`; when both averages are `0` the quotient is
`0.0/0.0 = NaN` and the RSI is `NaN` (both averages are nonnegative by
construction, so no other case arises). -/
def RSI (s : List PricePoint) (t : ℕ) : Option ℚ :=
  match avg_gain s t, avg_loss s t with
  | some g, some l =>
    if 0 < l then some (100 - 100 / (1 + g / l))
    else if 0 < g then some 100
    else none
  | _, _ => none

/-- The `Volume_MA` column at bar `t`. -/
def Volume_MA (s : List PricePoint) (t : ℕ) : Option ℚ :=
  rollingMean 20 (volumes s) t

/-- The `Volume` value at bar `t`. -/
def volumeAt (s : List PricePoint) (t : ℕ) : ℚ := (volumes s).getD t 0

/-- `Short_MA > Long_MA` (false when either is `NaN`). -/
def bullish_cross (s : List PricePoint) (cfg : Config) (t : ℕ) : Bool :=
  match Short_MA s cfg t, Long_MA s cfg t with
  | some a, some b => decide (b < a)
  | _, _ => false

/-- `Short_MA < Long_MA` (false when either is `NaN`). -/
def bearish_cross (s : List PricePoint) (cfg : Config) (t : ℕ) : Bool :=
  match Short_MA s cfg t, Long_MA s cfg t with
  | some a, some b => decide (a < b)
  | _, _ => false

/-- `(RSI > 40) & (RSI < 70)`. -/
def rsi_bullish (s : List PricePoint) (t : ℕ) : Bool :=
  match RSI s t with
  | some r => decide (40 < r) && decide (r < 70)
  | none => false

/-- `(RSI < 60) | (RSI > 70)`. -/
def rsi_bearish (s : List PricePoint) (t : ℕ) : Bool :=
  match RSI s t with
  | some r => decide (r < 60) || decide (70 < r)
  | none => false

/-- `Volume > Volume_MA * 0.8`. -/
def volume_confirmed (s : List PricePoint) (t : ℕ) : Bool :=
  match Volume_MA s t with
  | some v => decide (v * (8/10) < volumeAt s t)
  | none => false

/-- The `Signal` column at bar `t`: the code initialises it to `0`, sets
`1` on `bullish_cross & rsi_bullish & volume_confirmed`, then sets `-1`
on `bearish_cross & rsi_bearish` (the second assignment would overwrite
the first, exactly as this nested conditional does). -/
def Signal (s : List PricePoint) (cfg : Config) (t : ℕ) : ℤ :=
  if bearish_cross s cfg t && rsi_bearish s t then -1
  else if bullish_cross s cfg t && rsi_bullish s t && volume_confirmed s t then 1
  else 0

/-- The whole `Signal` column of `generate_signals`. -/
def generate_signals (s : List PricePoint) (cfg : Config) : List ℤ :=
  (List.range s.length).map (Signal s cfg)

/-- The data `execute_backtest` reads off a selected signal row:
its date, its `Close` and its `ATR`. -/
structure Event where
  date : ℤ
  close : ℚ
  atr : Option ℚ
deriving DecidableEq, Repr

/-- Bar positions where `Signal.diff() == 1`.  `diff()` at bar `t ≥ 1`
is `sig[t] - sig[t-1]`; at bar `0` it is `NaN`, which never equals `1`. -/
def buyEventBars (sig : List ℤ) : List ℕ :=
  (List.range sig.length).filter
    (fun t => decide (1 ≤ t) && decide (sig.getD t 0 - sig.getD (t - 1) 0 = 1))

/-- Bar positions where `Signal.diff() == -1`. -/
def sellEventBars (sig : List ℤ) : List ℕ :=
  (List.range sig.length).filter
    (fun t => decide (1 ≤ t) && decide (sig.getD t 0 - sig.getD (t - 1) 0 = -1))

/-- The row data at bar `t` that the backtest uses. -/
def mkEvent (s : List PricePoint) (t : ℕ) : Event :=
  { date := (dates s).getD t 0, close := (closes s).getD t 0, atr := ATR s t }

/-- `buy_signals = self.data[self.data['Signal'].diff() == 1]`. -/
def buy_signals (s : List PricePoint) (cfg : Config) : List Event :=
  (buyEventBars (generate_signals s cfg)).map (mkEvent s)

/-- `sell_signals = self.data[self.data['Signal'].diff() == -1]`. -/
def sell_signals (s : List PricePoint) (cfg : Config) : List Event :=
  (sellEventBars (generate_signals s cfg)).map (mkEvent s)

/-- Position sizing of `execute_backtest`:
`position_sie = int((risk_amount / (atr*2)) if atr > 0 else 100)` followed by
`position_sie = max(1, min(position_sie, int(capital / buy_price)))`.
A `NaN` `ATR` fails the `atr > 0` test, giving the fixed fallback `100`. -/
def position_sie (risk cap : ℚ) (atr : Option ℚ) (buy_price : ℚ) : ℤ :=
  let risk_amount := cap * risk
  let raw : ℤ :=
    match atr with
    | some a => if 0 < a then pyInt (risk_amount / (a * 2)) else 100
    | none => 100
  max 1 (min raw (pyInt (cap / buy_price)))

/-- One realized trade, exactly the dict appended to `trades`
(predominantly 2-decimal rounded copies of the exact quantities). -/
structure Trade where
  buy_date : ℤ
  buy_price : ℚ
  sell_date : ℤ
  sell_price : ℚ
  position_sie : ℤ
  profit_loss : ℚ
  profit_pct : ℚ
  hold_days : ℤ
  capital : ℚ
deriving DecidableEq, Repr

/-- The body of one loop iteration of `execute_backtest`: builds the
recorded trade dict and the new (unrounded) running capital. -/
def mkTrade (risk cap : ℚ) (b sEv : Event) : Trade × ℚ :=
  let sie := position_sie risk cap b.atr b.close
  let profit_loss := (sEv.close - b.close) * sie
  let profit_pct := (sEv.close - b.close) / b.close * 100
  let cap' := cap + profit_loss
  ({ buy_date := b.date
     buy_price := pyRound2 b.close
     sell_date := sEv.date
     sell_price := pyRound2 sEv.close
     position_sie := sie
     profit_loss := pyRound2 profit_loss
     profit_pct := pyRound2 profit_pct
     hold_days := sEv.date - b.date
     capital := pyRound2 cap' }, cap')

/-- Position of the first sell event strictly after date `d`
(`sell_signals[sell_signals.index > buy_date]` followed by
`.index[0]` / `get_loc`); returns the list length when there is none. -/
def findSellIdx (d : ℤ) : List Event → ℕ
  | [] => 0
  | sEv :: rest => if d < sEv.date then 0 else findSellIdx d rest + 1

/-- The `while` loop of `execute_backtest`.  The loop walks `buys` with
`buy_idx` (here: structural recursion), re-scans **all** sells for the
first one dated after the current buy, sets `sell_idx` to the position
of that sell plus one, and stops when either index reaches the end of
its list or no later sell exists. -/
def pairTrades (sells : List Event) (risk : ℚ) :
    List Event → ℕ → ℚ → List Trade × ℚ
  | [], _, cap => ([], cap)
  | b :: rest, sell_idx, cap =>
    if sell_idx < sells.length then
      let i := findSellIdx b.date sells
      if h : i < sells.length then
        let tc := mkTrade risk cap b (sells.get ⟨i, h⟩)
        let res := pairTrades sells risk rest (i + 1) tc.2
        (tc.1 :: res.1, res.2)
      else ([], cap)
    else ([], cap)

/-- `execute_backtest`: returns the trade list and the final capital. -/
def execute_backtest (s : List PricePoint) (cfg : Config) : List Trade × ℚ :=
  pairTrades (sell_signals s cfg) cfg.risk_per_trade (buy_signals s cfg) 0
    cfg.initial_capital

/-- Ghost variant of `pairTrades` recording, for every produced trade,
the buy event, the sell event, and the (unrounded) running capital at
entry.  Proved to project onto `pairTrades`. -/
def pairFull (sells : List Event) (risk : ℚ) :
    List Event → ℕ → ℚ → List (Event × Event × ℚ)
  | [], _, _ => []
  | b :: rest, sell_idx, cap =>
    if sell_idx < sells.length then
      let i := findSellIdx b.date sells
      if h : i < sells.length then
        (b, sells.get ⟨i, h⟩, cap) ::
          pairFull sells risk rest (i + 1) (mkTrade risk cap b (sells.get ⟨i, h⟩)).2
      else []
    else []


/-! ## Concrete price series used by the counterexamples and witnesses

All concrete bars have `high = close + 1`, `low = close - 1` and constant
volume `100`, with consecutive integer day numbers as dates. -/

/-- A concrete bar: date `d`, close `c`, high/low `c ± 1`, volume `100`. -/
def bar (d : ℤ) (c : ℚ) : PricePoint :=
  { date := d, open' := c, high := c + 1, low := c - 1, close := c, volume := 100 }

/-- A 26-bar price series (built for `short_window = 2`,
`long_window = 3`) whose signal column is
`[0 ×20, 1, -1, 0, -1, 0, -1]`, so that the buy events sit at bars
20, 22, 24 and the sell events at bars 23, 25. -/
def series26 : List PricePoint :=
  [bar 0 100, bar 1 101, bar 2 100, bar 3 101, bar 4 100, bar 5 101,
   bar 6 100, bar 7 101, bar 8 100, bar 9 101, bar 10 100, bar 11 101,
   bar 12 100, bar 13 102, bar 14 102, bar 15 102, bar 16 102, bar 17 102,
   bar 18 102, bar 19 102, bar 20 103, bar 21 100, bar 22 106,
   bar 23 (1116001/12000), bar 24 (1427999/12000), bar 25 66]

/-- Configuration with the windows `series26` was built for. -/
def cfg26 : Config :=
  { short_window := 2, long_window := 3, initial_capital := 10000,
    risk_per_trade := 2/100, stop_loss_pct := 5/100 }

/-- Same windows as `cfg26` but with (positive) initial capital `1`. -/
def cfgCap1 : Config :=
  { short_window := 2, long_window := 3, initial_capital := 1,
    risk_per_trade := 2/100, stop_loss_pct := 5/100 }

/-! ## Evaluation helpers -/

theorem rollingMean_eq (w t : ℕ) (xs : List ℚ) (v : ℚ) (h0 : 0 < w)
    (h1 : w ≤ t + 1) (h2 : t < xs.length)
    (h4 : ((xs.drop (t + 1 - w)).take w).sum = v * w) :
    rollingMean w xs t = some v := by
  have hw : ((w : ℕ) : ℚ) ≠ 0 := by
    exact_mod_cast Nat.pos_iff_ne_zero.mp h0
  unfold rollingMean
  rw [if_pos ⟨h1, h2⟩, h4, mul_div_cancel_right₀ v hw]

theorem rollingMean_none (w t : ℕ) (xs : List ℚ) (h : t + 1 < w) :
    rollingMean w xs t = none := by
  unfold rollingMean
  rw [if_neg]
  intro hc
  exact absurd hc.1 (by omega)

/-- Mean of a list (`len = 0` gives division by zero, i.e. `0` in `ℚ`;
the code guards every use by a nonemptiness test). -/
def listMean (xs : List ℚ) : ℚ := xs.sum / xs.length

/-- `np.maximum.accumulate`, tail worker. -/
def runningMaxAux (m : ℚ) : List ℚ → List ℚ
  | [] => []
  | x :: rest => max m x :: runningMaxAux (max m x) rest

/-- `np.maximum.accumulate`. -/
def runningMax : List ℚ → List ℚ
  | [] => []
  | x :: rest => x :: runningMaxAux x rest

/-- The performance report of `calculate_metrics`.  The Sharpe ratio
`mean/std` involves a square root, which `ℚ` cannot express; it is
recorded here by the pair (mean, population variance) of the per-trade
percentage returns, from which the code's float value is the function
`mean / sqrt variance` — this keeps every field an exact rational while
still determining the code's output. -/
structure Metrics where
  total_trades : ℕ
  winning_trades : ℕ
  losing_trades : ℕ
  win_rate : ℚ
  avg_win : ℚ
  avg_loss : ℚ
  profit_factor : ℚ
  total_return : ℚ
  total_return_pct : ℚ
  sharpe_mean : ℚ
  sharpe_var : ℚ
  max_drawdown : ℚ
  avg_hold_days : ℚ
deriving DecidableEq, Repr

/-- `calculate_metrics`: `None` on an empty trade list, otherwise the
aggregate of the recorded (rounded) trade fields. -/
def calculate_metrics (cfg : Config) (trades : List Trade)
    (final_capital : ℚ) : Option Metrics :=
  match trades with
  | [] => none
  | _ :: _ =>
    let pls := trades.map (·.profit_loss)
    let wins := pls.filter (fun x => decide (0 < x))
    let lossL := pls.filter (fun x => decide (x < 0))
    let win_rate := (wins.length : ℚ) / trades.length * 100
    let avg_win := if wins.length = 0 then 0 else listMean wins
    let avg_loss := if lossL.length = 0 then 0 else listMean (lossL.map (fun x => |x|))
    let profit_factor := if 0 < avg_loss then avg_win / avg_loss else 0
    let total_return := final_capital - cfg.initial_capital
    let total_return_pct := total_return / cfg.initial_capital * 100
    let rets := trades.map (·.profit_pct)
    let m := listMean rets
    let v := listMean (rets.map (fun x => (x - m) ^ 2))
    let curve := trades.map (·.capital)
    let dd := List.zipWith (fun c mx => (c - mx) / mx * 100) curve (runningMax curve)
    let mdd := match dd with | [] => 0 | x :: rest => rest.foldl min x
    some
      { total_trades := trades.length
        winning_trades := wins.length
        losing_trades := lossL.length
        win_rate := pyRound2 win_rate
        avg_win := pyRound2 avg_win
        avg_loss := pyRound2 avg_loss
        profit_factor := pyRound2 profit_factor
        total_return := pyRound2 total_return
        total_return_pct := pyRound2 total_return_pct
        sharpe_mean := m
        sharpe_var := v
        max_drawdown := pyRound2 mdd
        avg_hold_days := pyRound1 (listMean (trades.map (fun tr => (tr.hold_days : ℚ)))) }

/-- The full deterministic pipeline from (series, configuration) to
(trade list, final capital, metrics report). -/
def runPipeline (s : List PricePoint) (cfg : Config) :
    List Trade × ℚ × Option Metrics :=
  let r := execute_backtest s cfg
  (r.1, r.2, calculate_metrics cfg r.1 r.2)

/-! # Concrete evaluation lemmas for the counterexample series -/

theorem gains_series26 : gains series26 =
    [0, 1, 0, 1, 0, 1, 0, 1, 0, 1, 0, 1, 0, 2, 0, 0, 0, 0, 0, 0, 1, 0, 6, 0,
     155999/6000, 0] := by
  norm_num [gains, deltas, closes, series26, bar, List.drop_one, max_def]

theorem losses_series26 : losses series26 =
    [0, 0, 1, 0, 1, 0, 1, 0, 1, 0, 1, 0,
     1, 0, 0, 0, 0, 0, 0, 0, 0, 3, 0, 155999/12000,
     0, 635999/12000] := by
  norm_num [losses, deltas, closes, series26, bar, List.drop_one, max_def, abs]

theorem trueRanges_series26 : trueRanges series26 =
    [2, 2, 2, 2, 2, 2, 2, 2, 2, 2, 2, 2,
     2, 3, 2, 2, 2, 2, 2, 2, 2, 4, 7, 167999/12000,
     161999/6000, 647999/12000] := by
  norm_num [trueRanges, deltas, closes, series26, bar, List.drop_one, max_def, abs]

theorem shortMA_13 : Short_MA series26 cfg26 13 = some (101) :=
  rollingMean_eq 2 13 (closes series26) (101) (by norm_num) (by norm_num)
    (by decide) (show (([100, 102] : List ℚ)).sum = (101) * 2 by norm_num)

theorem longMA_13 : Long_MA series26 cfg26 13 = some (101) :=
  rollingMean_eq 3 13 (closes series26) (101) (by norm_num) (by norm_num)
    (by decide) (show (([101, 100, 102] : List ℚ)).sum = (101) * 3 by norm_num)

theorem shortMA_14 : Short_MA series26 cfg26 14 = some (102) :=
  rollingMean_eq 2 14 (closes series26) (102) (by norm_num) (by norm_num)
    (by decide) (show (([102, 102] : List ℚ)).sum = (102) * 2 by norm_num)

theorem longMA_14 : Long_MA series26 cfg26 14 = some (304/3) :=
  rollingMean_eq 3 14 (closes series26) (304/3) (by norm_num) (by norm_num)
    (by decide) (show (([100, 102, 102] : List ℚ)).sum = (304/3) * 3 by norm_num)

theorem shortMA_15 : Short_MA series26 cfg26 15 = some (102) :=
  rollingMean_eq 2 15 (closes series26) (102) (by norm_num) (by norm_num)
    (by decide) (show (([102, 102] : List ℚ)).sum = (102) * 2 by norm_num)

theorem longMA_15 : Long_MA series26 cfg26 15 = some (102) :=
  rollingMean_eq 3 15 (closes series26) (102) (by norm_num) (by norm_num)
    (by decide) (show (([102, 102, 102] : List ℚ)).sum = (102) * 3 by norm_num)

theorem shortMA_16 : Short_MA series26 cfg26 16 = some (102) :=
  rollingMean_eq 2 16 (closes series26) (102) (by norm_num) (by norm_num)
    (by decide) (show (([102, 102] : List ℚ)).sum = (102) * 2 by norm_num)

theorem longMA_16 : Long_MA series26 cfg26 16 = some (102) :=
  rollingMean_eq 3 16 (closes series26) (102) (by norm_num) (by norm_num)
    (by decide) (show (([102, 102, 102] : List ℚ)).sum = (102) * 3 by norm_num)

theorem shortMA_17 : Short_MA series26 cfg26 17 = some (102) :=
  rollingMean_eq 2 17 (closes series26) (102) (by norm_num) (by norm_num)
    (by decide) (show (([102, 102] : List ℚ)).sum = (102) * 2 by norm_num)

theorem longMA_17 : Long_MA series26 cfg26 17 = some (102) :=
  rollingMean_eq 3 17 (closes series26) (102) (by norm_num) (by norm_num)
    (by decide) (show (([102, 102, 102] : List ℚ)).sum = (102) * 3 by norm_num)

theorem shortMA_18 : Short_MA series26 cfg26 18 = some (102) :=
  rollingMean_eq 2 18 (closes series26) (102) (by norm_num) (by norm_num)
    (by decide) (show (([102, 102] : List ℚ)).sum = (102) * 2 by norm_num)

theorem longMA_18 : Long_MA series26 cfg26 18 = some (102) :=
  rollingMean_eq 3 18 (closes series26) (102) (by norm_num) (by norm_num)
    (by decide) (show (([102, 102, 102] : List ℚ)).sum = (102) * 3 by norm_num)

theorem shortMA_19 : Short_MA series26 cfg26 19 = some (102) :=
  rollingMean_eq 2 19 (closes series26) (102) (by norm_num) (by norm_num)
    (by decide) (show (([102, 102] : List ℚ)).sum = (102) * 2 by norm_num)

theorem longMA_19 : Long_MA series26 cfg26 19 = some (102) :=
  rollingMean_eq 3 19 (closes series26) (102) (by norm_num) (by norm_num)
    (by decide) (show (([102, 102, 102] : List ℚ)).sum = (102) * 3 by norm_num)

theorem shortMA_20 : Short_MA series26 cfg26 20 = some (205/2) :=
  rollingMean_eq 2 20 (closes series26) (205/2) (by norm_num) (by norm_num)
    (by decide) (show (([102, 103] : List ℚ)).sum = (205/2) * 2 by norm_num)

theorem longMA_20 : Long_MA series26 cfg26 20 = some (307/3) :=
  rollingMean_eq 3 20 (closes series26) (307/3) (by norm_num) (by norm_num)
    (by decide) (show (([102, 102, 103] : List ℚ)).sum = (307/3) * 3 by norm_num)

theorem shortMA_21 : Short_MA series26 cfg26 21 = some (203/2) :=
  rollingMean_eq 2 21 (closes series26) (203/2) (by norm_num) (by norm_num)
    (by decide) (show (([103, 100] : List ℚ)).sum = (203/2) * 2 by norm_num)

theorem longMA_21 : Long_MA series26 cfg26 21 = some (305/3) :=
  rollingMean_eq 3 21 (closes series26) (305/3) (by norm_num) (by norm_num)
    (by decide) (show (([102, 103, 100] : List ℚ)).sum = (305/3) * 3 by norm_num)

theorem shortMA_22 : Short_MA series26 cfg26 22 = some (103) :=
  rollingMean_eq 2 22 (closes series26) (103) (by norm_num) (by norm_num)
    (by decide) (show (([100, 106] : List ℚ)).sum = (103) * 2 by norm_num)

theorem longMA_22 : Long_MA series26 cfg26 22 = some (103) :=
  rollingMean_eq 3 22 (closes series26) (103) (by norm_num) (by norm_num)
    (by decide) (show (([103, 100, 106] : List ℚ)).sum = (103) * 3 by norm_num)

theorem shortMA_23 : Short_MA series26 cfg26 23 = some (2388001/24000) :=
  rollingMean_eq 2 23 (closes series26) (2388001/24000) (by norm_num) (by norm_num)
    (by decide) (show (([106, 1116001/12000] : List ℚ)).sum = (2388001/24000) * 2 by norm_num)

theorem longMA_23 : Long_MA series26 cfg26 23 = some (3588001/36000) :=
  rollingMean_eq 3 23 (closes series26) (3588001/36000) (by norm_num) (by norm_num)
    (by decide) (show (([100, 106, 1116001/12000] : List ℚ)).sum = (3588001/36000) * 3 by norm_num)

theorem shortMA_24 : Short_MA series26 cfg26 24 = some (106) :=
  rollingMean_eq 2 24 (closes series26) (106) (by norm_num) (by norm_num)
    (by decide) (show (([1116001/12000, 1427999/12000] : List ℚ)).sum = (106) * 2 by norm_num)

theorem longMA_24 : Long_MA series26 cfg26 24 = some (106) :=
  rollingMean_eq 3 24 (closes series26) (106) (by norm_num) (by norm_num)
    (by decide) (show (([106, 1116001/12000, 1427999/12000] : List ℚ)).sum = (106) * 3 by norm_num)

theorem shortMA_25 : Short_MA series26 cfg26 25 = some (2219999/24000) :=
  rollingMean_eq 2 25 (closes series26) (2219999/24000) (by norm_num) (by norm_num)
    (by decide) (show (([1427999/12000, 66] : List ℚ)).sum = (2219999/24000) * 2 by norm_num)

theorem longMA_25 : Long_MA series26 cfg26 25 = some (278/3) :=
  rollingMean_eq 3 25 (closes series26) (278/3) (by norm_num) (by norm_num)
    (by decide) (show (([1116001/12000, 1427999/12000, 66] : List ℚ)).sum = (278/3) * 3 by norm_num)

theorem avg_gain_20 : avg_gain series26 20 = some (3/7) := by
  show rollingMean 14 (gains series26) 20 = _
  rw [gains_series26]
  exact rollingMean_eq 14 20 _ (3/7) (by norm_num) (by norm_num) (by decide)
    (show (([1, 0, 1, 0, 1, 0, 2, 0, 0, 0, 0, 0, 0, 1] : List ℚ)).sum = (3/7) * 14 by norm_num)

theorem avg_loss_20 : avg_loss series26 20 = some (3/14) := by
  show rollingMean 14 (losses series26) 20 = _
  rw [losses_series26]
  exact rollingMean_eq 14 20 _ (3/14) (by norm_num) (by norm_num) (by decide)
    (show (([0, 1, 0, 1, 0, 1, 0, 0, 0, 0, 0, 0, 0, 0] : List ℚ)).sum = (3/14) * 14 by norm_num)

theorem avg_gain_21 : avg_gain series26 21 = some (5/14) := by
  show rollingMean 14 (gains series26) 21 = _
  rw [gains_series26]
  exact rollingMean_eq 14 21 _ (5/14) (by norm_num) (by norm_num) (by decide)
    (show (([0, 1, 0, 1, 0, 2, 0, 0, 0, 0, 0, 0, 1, 0] : List ℚ)).sum = (5/14) * 14 by norm_num)

theorem avg_loss_21 : avg_loss series26 21 = some (3/7) := by
  show rollingMean 14 (losses series26) 21 = _
  rw [losses_series26]
  exact rollingMean_eq 14 21 _ (3/7) (by norm_num) (by norm_num) (by decide)
    (show (([1, 0, 1, 0, 1, 0, 0, 0, 0, 0, 0, 0, 0, 3] : List ℚ)).sum = (3/7) * 14 by norm_num)

theorem avg_gain_23 : avg_gain series26 23 = some (5/7) := by
  show rollingMean 14 (gains series26) 23 = _
  rw [gains_series26]
  exact rollingMean_eq 14 23 _ (5/7) (by norm_num) (by norm_num) (by decide)
    (show (([0, 1, 0, 2, 0, 0, 0, 0, 0, 0, 1, 0, 6, 0] : List ℚ)).sum = (5/7) * 14 by norm_num)

theorem avg_loss_23 : avg_loss series26 23 = some (30857/24000) := by
  show rollingMean 14 (losses series26) 23 = _
  rw [losses_series26]
  exact rollingMean_eq 14 23 _ (30857/24000) (by norm_num) (by norm_num) (by decide)
    (show (([1, 0, 1, 0, 0, 0, 0, 0, 0, 0, 0, 3, 0, 155999/12000] : List ℚ)).sum = (30857/24000) * 14 by norm_num)

theorem avg_gain_25 : avg_gain series26 25 = some (209999/84000) := by
  show rollingMean 14 (gains series26) 25 = _
  rw [gains_series26]
  exact rollingMean_eq 14 25 _ (209999/84000) (by norm_num) (by norm_num) (by decide)
    (show (([0, 2, 0, 0, 0, 0, 0, 0, 1, 0, 6, 0, 155999/6000, 0] : List ℚ)).sum = (209999/84000) * 14 by norm_num)

theorem avg_loss_25 : avg_loss series26 25 = some (419999/84000) := by
  show rollingMean 14 (losses series26) 25 = _
  rw [losses_series26]
  exact rollingMean_eq 14 25 _ (419999/84000) (by norm_num) (by norm_num) (by decide)
    (show (([1, 0, 0, 0, 0, 0, 0, 0, 0, 3, 0, 155999/12000, 0, 635999/12000] : List ℚ)).sum = (419999/84000) * 14 by norm_num)

theorem ATR_20 : ATR series26 20 = some (29/14) := by
  show rollingMean 14 (trueRanges series26) 20 = _
  rw [trueRanges_series26]
  exact rollingMean_eq 14 20 _ (29/14) (by norm_num) (by norm_num) (by decide)
    (show (([2, 2, 2, 2, 2, 2, 3, 2, 2, 2, 2, 2, 2, 2] : List ℚ)).sum = (29/14) * 14 by norm_num)

theorem ATR_22 : ATR series26 22 = some (18/7) := by
  show rollingMean 14 (trueRanges series26) 22 = _
  rw [trueRanges_series26]
  exact rollingMean_eq 14 22 _ (18/7) (by norm_num) (by norm_num) (by decide)
    (show (([2, 2, 2, 2, 3, 2, 2, 2, 2, 2, 2, 2, 4, 7] : List ℚ)).sum = (18/7) * 14 by norm_num)

theorem ATR_24 : ATR series26 24 = some (291999/56000) := by
  show rollingMean 14 (trueRanges series26) 24 = _
  rw [trueRanges_series26]
  exact rollingMean_eq 14 24 _ (291999/56000) (by norm_num) (by norm_num) (by decide)
    (show (([2, 2, 3, 2, 2, 2, 2, 2, 2, 2, 4, 7, 167999/12000, 161999/6000] : List ℚ)).sum = (291999/56000) * 14 by norm_num)

theorem volMA_20 : Volume_MA series26 20 = some 100 :=
  rollingMean_eq 20 20 (volumes series26) 100 (by norm_num) (by norm_num)
    (by decide) (show (([100, 100, 100, 100, 100, 100, 100, 100, 100, 100, 100, 100, 100, 100, 100, 100, 100, 100, 100, 100] : List ℚ)).sum = (100 : ℚ) * 20 by norm_num)

theorem RSI_20 : RSI series26 20 = some (200/3) := by
  unfold RSI
  rw [avg_gain_20, avg_loss_20]
  norm_num

theorem RSI_21 : RSI series26 21 = some (500/11) := by
  unfold RSI
  rw [avg_gain_21, avg_loss_21]
  norm_num

theorem RSI_23 : RSI series26 23 = some (12000000/335999) := by
  unfold RSI
  rw [avg_gain_23, avg_loss_23]
  norm_num

theorem RSI_25 : RSI series26 25 = some (10499950/314999) := by
  unfold RSI
  rw [avg_gain_25, avg_loss_25]
  norm_num

/-! ## General signal lemmas -/

theorem RSI_none_of_lt14 (s : List PricePoint) (t : ℕ) (h : t + 1 < 14) :
    RSI s t = none := by
  unfold RSI avg_gain
  rw [rollingMean_none 14 t (gains s) h]

theorem Volume_MA_none_of_lt20 (s : List PricePoint) (t : ℕ) (h : t + 1 < 20) :
    Volume_MA s t = none :=
  rollingMean_none 20 t (volumes s) h

theorem volume_confirmed_of_none (s : List PricePoint) (t : ℕ)
    (h : Volume_MA s t = none) : volume_confirmed s t = false := by
  unfold volume_confirmed
  rw [h]

theorem Signal_eq_zero_of_RSI_none (s : List PricePoint) (cfg : Config) (t : ℕ)
    (h : RSI s t = none) : Signal s cfg t = 0 := by
  unfold Signal rsi_bearish rsi_bullish
  rw [h]
  simp

theorem Signal_eq_zero_of_MA_eq (s : List PricePoint) (cfg : Config) (t : ℕ)
    (a : ℚ) (h1 : Short_MA s cfg t = some a) (h2 : Long_MA s cfg t = some a) :
    Signal s cfg t = 0 := by
  unfold Signal bearish_cross bullish_cross
  rw [h1, h2]
  simp

theorem Signal_eq_zero_of_false (s : List PricePoint) (cfg : Config) (t : ℕ)
    (hb : bearish_cross s cfg t = false) (hv : volume_confirmed s t = false) :
    Signal s cfg t = 0 := by
  unfold Signal
  rw [hb, hv]
  simp

theorem Signal_eq_neg_one (s : List PricePoint) (cfg : Config) (t : ℕ)
    (hb : bearish_cross s cfg t = true) (hr : rsi_bearish s t = true) :
    Signal s cfg t = -1 := by
  unfold Signal
  rw [hb, hr]
  simp

theorem Signal_eq_one (s : List PricePoint) (cfg : Config) (t : ℕ)
    (hb : bearish_cross s cfg t = false) (h1 : bullish_cross s cfg t = true)
    (h2 : rsi_bullish s t = true) (h3 : volume_confirmed s t = true) :
    Signal s cfg t = 1 := by
  unfold Signal
  rw [hb, h1, h2, h3]
  simp

/-! ## Per-bar boolean predicate values on `series26` -/

theorem bear_14 : bearish_cross series26 cfg26 14 = false := by
  unfold bearish_cross
  rw [shortMA_14, longMA_14]
  simp only [decide_eq_false_iff_not]
  norm_num

theorem bear_20 : bearish_cross series26 cfg26 20 = false := by
  unfold bearish_cross
  rw [shortMA_20, longMA_20]
  simp only [decide_eq_false_iff_not]
  norm_num

theorem bull_20 : bullish_cross series26 cfg26 20 = true := by
  unfold bullish_cross
  rw [shortMA_20, longMA_20]
  simp only [decide_eq_true_eq]
  norm_num

theorem rsib_20 : rsi_bullish series26 20 = true := by
  unfold rsi_bullish
  rw [RSI_20]
  simp only [Bool.and_eq_true, decide_eq_true_eq]
  norm_num

theorem volc_20 : volume_confirmed series26 20 = true := by
  unfold volume_confirmed
  rw [volMA_20]
  simp only [decide_eq_true_eq]
  show (100 : ℚ) * (8/10) < 100
  norm_num

theorem bear_21 : bearish_cross series26 cfg26 21 = true := by
  unfold bearish_cross
  rw [shortMA_21, longMA_21]
  simp only [decide_eq_true_eq]
  norm_num

theorem rsibear_21 : rsi_bearish series26 21 = true := by
  unfold rsi_bearish
  rw [RSI_21]
  simp only [Bool.or_eq_true, decide_eq_true_eq]
  norm_num

theorem bear_23 : bearish_cross series26 cfg26 23 = true := by
  unfold bearish_cross
  rw [shortMA_23, longMA_23]
  simp only [decide_eq_true_eq]
  norm_num

theorem rsibear_23 : rsi_bearish series26 23 = true := by
  unfold rsi_bearish
  rw [RSI_23]
  simp only [Bool.or_eq_true, decide_eq_true_eq]
  norm_num

theorem bear_25 : bearish_cross series26 cfg26 25 = true := by
  unfold bearish_cross
  rw [shortMA_25, longMA_25]
  simp only [decide_eq_true_eq]
  norm_num

theorem rsibear_25 : rsi_bearish series26 25 = true := by
  unfold rsi_bearish
  rw [RSI_25]
  simp only [Bool.or_eq_true, decide_eq_true_eq]
  norm_num

/-! ## The signal column of `series26` -/

theorem signals_series26 : generate_signals series26 cfg26 =
    [0, 0, 0, 0, 0, 0, 0, 0, 0, 0, 0, 0, 0, 0, 0, 0, 0, 0, 0, 0, 1, -1, 0,
     -1, 0, -1] := by
  have hz : ∀ t : ℕ, t + 1 < 14 → Signal series26 cfg26 t = 0 := fun t ht =>
    Signal_eq_zero_of_RSI_none _ _ _ (RSI_none_of_lt14 _ _ ht)
  have h0 := hz 0 (by norm_num)
  have h1 := hz 1 (by norm_num)
  have h2 := hz 2 (by norm_num)
  have h3 := hz 3 (by norm_num)
  have h4 := hz 4 (by norm_num)
  have h5 := hz 5 (by norm_num)
  have h6 := hz 6 (by norm_num)
  have h7 := hz 7 (by norm_num)
  have h8 := hz 8 (by norm_num)
  have h9 := hz 9 (by norm_num)
  have h10 := hz 10 (by norm_num)
  have h11 := hz 11 (by norm_num)
  have h12 := hz 12 (by norm_num)
  have h13 := Signal_eq_zero_of_MA_eq series26 cfg26 13 101 shortMA_13 longMA_13
  have h14 := Signal_eq_zero_of_false series26 cfg26 14 bear_14
    (volume_confirmed_of_none _ _ (Volume_MA_none_of_lt20 _ _ (by norm_num)))
  have h15 := Signal_eq_zero_of_MA_eq series26 cfg26 15 102 shortMA_15 longMA_15
  have h16 := Signal_eq_zero_of_MA_eq series26 cfg26 16 102 shortMA_16 longMA_16
  have h17 := Signal_eq_zero_of_MA_eq series26 cfg26 17 102 shortMA_17 longMA_17
  have h18 := Signal_eq_zero_of_MA_eq series26 cfg26 18 102 shortMA_18 longMA_18
  have h19 := Signal_eq_zero_of_MA_eq series26 cfg26 19 102 shortMA_19 longMA_19
  have h20 := Signal_eq_one series26 cfg26 20 bear_20 bull_20 rsib_20 volc_20
  have h21 := Signal_eq_neg_one series26 cfg26 21 bear_21 rsibear_21
  have h22 := Signal_eq_zero_of_MA_eq series26 cfg26 22 103 shortMA_22 longMA_22
  have h23 := Signal_eq_neg_one series26 cfg26 23 bear_23 rsibear_23
  have h24 := Signal_eq_zero_of_MA_eq series26 cfg26 24 106 shortMA_24 longMA_24
  have h25 := Signal_eq_neg_one series26 cfg26 25 bear_25 rsibear_25
  unfold generate_signals
  rw [show series26.length = 26 from rfl, show List.range 26 =
    [0, 1, 2, 3, 4, 5, 6, 7, 8, 9, 10, 11, 12, 13, 14, 15, 16, 17, 18, 19,
     20, 21, 22, 23, 24, 25] by decide]
  simp only [List.map_cons, List.map_nil, h0, h1, h2, h3, h4, h5, h6, h7, h8,
    h9, h10, h11, h12, h13, h14, h15, h16, h17, h18, h19, h20, h21, h22, h23,
    h24, h25]

/-! ## Events of `series26` -/

theorem buyBars26 : buyEventBars (generate_signals series26 cfg26) = [20, 22, 24] := by
  rw [signals_series26]
  decide

theorem sellBars26 : sellEventBars (generate_signals series26 cfg26) = [23, 25] := by
  rw [signals_series26]
  decide

theorem mkEvent_20 : mkEvent series26 20 = ⟨20, 103, some (29/14)⟩ := by
  unfold mkEvent
  rw [ATR_20]
  exact rfl

theorem mkEvent_22 : mkEvent series26 22 = ⟨22, 106, some (18/7)⟩ := by
  unfold mkEvent
  rw [ATR_22]
  exact rfl

theorem mkEvent_24 : mkEvent series26 24 = ⟨24, 1427999/12000, some (291999/56000)⟩ := by
  unfold mkEvent
  rw [ATR_24]
  exact rfl

theorem sell23_date : (mkEvent series26 23).date = 23 := rfl

theorem sell23_close : (mkEvent series26 23).close = 1116001/12000 := rfl

theorem sell25_date : (mkEvent series26 25).date = 25 := rfl

theorem sell25_close : (mkEvent series26 25).close = 66 := rfl

theorem buy_signals_series26 : buy_signals series26 cfg26 =
    [⟨20, 103, some (29/14)⟩, ⟨22, 106, some (18/7)⟩,
     ⟨24, 1427999/12000, some (291999/56000)⟩] := by
  unfold buy_signals
  rw [buyBars26]
  simp only [List.map_cons, List.map_nil, mkEvent_20, mkEvent_22, mkEvent_24]

theorem sell_signals_series26 : sell_signals series26 cfg26 =
    [mkEvent series26 23, mkEvent series26 25] := by
  unfold sell_signals
  rw [sellBars26]
  simp only [List.map_cons, List.map_nil]

/-! ## Evaluation of `pyInt`, `pyRound2`, `position_sie` -/

theorem pyInt_eval (q : ℚ) (z : ℤ) (h0 : 0 ≤ q) (h1 : (z:ℚ) ≤ q)
    (h2 : q < z + 1) : pyInt q = z := by
  unfold pyInt
  rw [if_pos h0]
  exact Int.floor_eq_iff.mpr ⟨h1, h2⟩

theorem pyRound_lo (x : ℚ) (f : ℤ) (h1 : (f:ℚ) ≤ x) (h2 : x - f < 1/2) :
    pyRound x = f := by
  have hf : ⌊x⌋ = f := Int.floor_eq_iff.mpr ⟨h1, by linarith⟩
  unfold pyRound
  rw [hf, if_pos h2]

theorem pyRound_hi (x : ℚ) (f : ℤ) (h1 : (f:ℚ) ≤ x) (h2 : x < f + 1)
    (h3 : 1/2 < x - f) : pyRound x = f + 1 := by
  have hf : ⌊x⌋ = f := Int.floor_eq_iff.mpr ⟨h1, h2⟩
  unfold pyRound
  rw [hf]
  rw [if_neg (by linarith), if_pos h3]

theorem pyRound2_lo (q : ℚ) (f : ℤ) (h1 : (f:ℚ) ≤ q * 100)
    (h2 : q * 100 - f < 1/2) : pyRound2 q = (f : ℚ) / 100 := by
  unfold pyRound2
  rw [pyRound_lo (q * 100) f h1 h2]

theorem pyRound2_hi (q : ℚ) (f : ℤ) (h1 : (f:ℚ) ≤ q * 100)
    (h2 : q * 100 < f + 1) (h3 : 1/2 < q * 100 - f) :
    pyRound2 q = ((f : ℚ) + 1) / 100 := by
  unfold pyRound2
  rw [pyRound_hi (q * 100) f h1 h2 h3]
  push_cast
  ring

theorem position_sie_eval (risk cap a price : ℚ) (r c : ℤ) (ha : 0 < a)
    (h1 : pyInt (cap * risk / (a * 2)) = r) (h2 : pyInt (cap / price) = c) :
    position_sie risk cap (some a) price = max 1 (min r c) := by
  simp only [position_sie]
  rw [if_pos ha, h1, h2]

theorem sie0 : position_sie (2/100) 10000 (some (29/14)) 103 = 48 := by
  rw [position_sie_eval (2/100) 10000 (29/14) 103 48 97 (by norm_num)
    (pyInt_eval _ 48 (by norm_num) (by norm_num) (by norm_num))
    (pyInt_eval _ 97 (by norm_num) (by norm_num) (by norm_num))]
  decide

theorem pairTrades_nil (sells : List Event) (risk cap : ℚ) (sell_idx : ℕ) :
    pairTrades sells risk [] sell_idx cap = ([], cap) := by
  simp only [pairTrades]

theorem pairTrades_cons (sells : List Event) (risk cap : ℚ) (b sEv : Event)
    (rest : List Event) (sell_idx i : ℕ) (hs : sell_idx < sells.length)
    (hi : findSellIdx b.date sells = i) (h : i < sells.length)
    (hget : sells.get ⟨i, h⟩ = sEv) :
    pairTrades sells risk (b :: rest) sell_idx cap =
      ((mkTrade risk cap b sEv).1 ::
        (pairTrades sells risk rest (i + 1) (mkTrade risk cap b sEv).2).1,
       (pairTrades sells risk rest (i + 1) (mkTrade risk cap b sEv).2).2) := by
  rw [pairTrades, if_pos hs]
  simp only [hi, dif_pos h, hget]

theorem snd0 : (mkTrade (2/100) 10000 ⟨20, 103, some (29/14)⟩
    (mkEvent series26 23)).2 = 2380001/250 := by
  show 10000 + ((mkEvent series26 23).close - 103) *
    ((position_sie (2/100) 10000 (some (29/14)) 103 : ℤ) : ℚ) = 2380001/250
  rw [sell23_close, sie0]
  push_cast
  norm_num

theorem sie1 : position_sie (2/100) (2380001/250) (some (18/7)) 106 = 37 := by
  rw [position_sie_eval (2/100) (2380001/250) (18/7) 106 37 89 (by norm_num)
    (pyInt_eval _ 37 (by norm_num) (by norm_num) (by norm_num))
    (pyInt_eval _ 89 (by norm_num) (by norm_num) (by norm_num))]
  decide

theorem snd1 : (mkTrade (2/100) (2380001/250) ⟨22, 106, some (18/7)⟩
    (mkEvent series26 23)).2 = 21693617/2400 := by
  show 2380001/250 + ((mkEvent series26 23).close - 106) *
    ((position_sie (2/100) (2380001/250) (some (18/7)) 106 : ℤ) : ℚ) = 21693617/2400
  rw [sell23_close, sie1]
  push_cast
  norm_num

theorem trades26 : (execute_backtest series26 cfg26).1 =
    [(mkTrade (2/100) 10000 ⟨20, 103, some (29/14)⟩ (mkEvent series26 23)).1,
     (mkTrade (2/100) (2380001/250) ⟨22, 106, some (18/7)⟩ (mkEvent series26 23)).1,
     (mkTrade (2/100) (21693617/2400) ⟨24, 1427999/12000, some (291999/56000)⟩
       (mkEvent series26 25)).1] := by
  unfold execute_backtest
  rw [buy_signals_series26, sell_signals_series26,
    show cfg26.risk_per_trade = 2/100 from rfl,
    show cfg26.initial_capital = (10000 : ℚ) from rfl]
  rw [pairTrades_cons [mkEvent series26 23, mkEvent series26 25] (2/100) 10000
    ⟨20, 103, some (29/14)⟩ (mkEvent series26 23)
    [⟨22, 106, some (18/7)⟩, ⟨24, 1427999/12000, some (291999/56000)⟩] 0 0
    (by decide)
    (by simp only [findSellIdx, sell23_date]; norm_num)
    (by decide) rfl]
  rw [snd0]
  rw [pairTrades_cons [mkEvent series26 23, mkEvent series26 25] (2/100)
    (2380001/250) ⟨22, 106, some (18/7)⟩ (mkEvent series26 23)
    [⟨24, 1427999/12000, some (291999/56000)⟩] 1 0
    (by decide)
    (by simp only [findSellIdx, sell23_date]; norm_num)
    (by decide) rfl]
  rw [snd1]
  rw [pairTrades_cons [mkEvent series26 23, mkEvent series26 25] (2/100)
    (21693617/2400) ⟨24, 1427999/12000, some (291999/56000)⟩ (mkEvent series26 25)
    [] 1 1
    (by decide)
    (by simp only [findSellIdx, sell23_date, sell25_date]; norm_num)
    (by decide) rfl]
  rw [pairTrades_nil]

/-! ## Recorded fields of the three trades of `series26` -/

/-- Default `Trade` used with `List.getD`. -/
def dTrade : Trade := ⟨0, 0, 0, 0, 0, 0, 0, 0, 0⟩

theorem T0_capital : ((mkTrade (2/100) 10000 ⟨20, 103, some (29/14)⟩
    (mkEvent series26 23)).1).capital = 9520 := by
  show pyRound2 (10000 + ((mkEvent series26 23).close - 103) *
    ((position_sie (2/100) 10000 (some (29/14)) 103 : ℤ) : ℚ)) = 9520
  rw [sell23_close, sie0,
    show (10000 + (1116001/12000 - 103) * ((48 : ℤ) : ℚ) : ℚ) = 2380001/250 by
      push_cast; norm_num,
    pyRound2_lo (2380001/250) 952000 (by norm_num) (by norm_num)]
  norm_num

theorem T1_profit_loss : ((mkTrade (2/100) (2380001/250) ⟨22, 106, some (18/7)⟩
    (mkEvent series26 23)).1).profit_loss = -481 := by
  show pyRound2 (((mkEvent series26 23).close - 106) *
    ((position_sie (2/100) (2380001/250) (some (18/7)) 106 : ℤ) : ℚ)) = -481
  rw [sell23_close, sie1,
    show ((1116001/12000 - 106) * ((37 : ℤ) : ℚ) : ℚ) = -(5771963/12000) by
      push_cast; norm_num,
    pyRound2_lo (-(5771963/12000)) (-48100) (by norm_num) (by norm_num)]
  norm_num

theorem T1_capital : ((mkTrade (2/100) (2380001/250) ⟨22, 106, some (18/7)⟩
    (mkEvent series26 23)).1).capital = 903901/100 := by
  show pyRound2 (2380001/250 + ((mkEvent series26 23).close - 106) *
    ((position_sie (2/100) (2380001/250) (some (18/7)) 106 : ℤ) : ℚ)) = 903901/100
  rw [sell23_close, sie1,
    show (2380001/250 + (1116001/12000 - 106) * ((37 : ℤ) : ℚ) : ℚ) = 21693617/2400 by
      push_cast; norm_num,
    pyRound2_hi (21693617/2400) 903900 (by norm_num) (by norm_num) (by norm_num)]
  norm_num

/-! ## The signal column does not depend on the capital-related fields -/

theorem generate_signals_congr (s : List PricePoint) (cfg1 cfg2 : Config)
    (hs : cfg1.short_window = cfg2.short_window)
    (hl : cfg1.long_window = cfg2.long_window) :
    generate_signals s cfg1 = generate_signals s cfg2 := by
  unfold generate_signals
  have h : Signal s cfg1 = Signal s cfg2 := funext fun t => by
    unfold Signal bearish_cross bullish_cross Short_MA Long_MA
    rw [hs, hl]
  rw [h]

theorem buy_signals_cap1 : buy_signals series26 cfgCap1 =
    [⟨20, 103, some (29/14)⟩, ⟨22, 106, some (18/7)⟩,
     ⟨24, 1427999/12000, some (291999/56000)⟩] := by
  unfold buy_signals
  rw [generate_signals_congr series26 cfgCap1 cfg26 rfl rfl, buyBars26]
  simp only [List.map_cons, List.map_nil, mkEvent_20, mkEvent_22, mkEvent_24]

theorem sell_signals_cap1 : sell_signals series26 cfgCap1 =
    [mkEvent series26 23, mkEvent series26 25] := by
  unfold sell_signals
  rw [generate_signals_congr series26 cfgCap1 cfg26 rfl rfl, sellBars26]
  simp only [List.map_cons, List.map_nil]

theorem sie_cap1 : position_sie (2/100) 1 (some (29/14)) 103 = 1 := by
  rw [position_sie_eval (2/100) 1 (29/14) 103 0 0 (by norm_num)
    (pyInt_eval _ 0 (by norm_num) (by norm_num) (by norm_num))
    (pyInt_eval _ 0 (by norm_num) (by norm_num) (by norm_num))]
  decide

theorem pyRound2_103 : pyRound2 (103 : ℚ) = 103 := by
  rw [pyRound2_lo 103 10300 (by norm_num) (by norm_num)]
  norm_num

theorem backtest_cap1_head : (execute_backtest series26 cfgCap1).1.head? =
    some (mkTrade (2/100) 1 ⟨20, 103, some (29/14)⟩ (mkEvent series26 23)).1 := by
  unfold execute_backtest
  rw [buy_signals_cap1, sell_signals_cap1,
    show cfgCap1.risk_per_trade = 2/100 from rfl,
    show cfgCap1.initial_capital = (1 : ℚ) from rfl]
  rw [pairTrades_cons [mkEvent series26 23, mkEvent series26 25] (2/100) 1
    ⟨20, 103, some (29/14)⟩ (mkEvent series26 23)
    [⟨22, 106, some (18/7)⟩, ⟨24, 1427999/12000, some (291999/56000)⟩] 0 0
    (by decide)
    (by simp only [findSellIdx, sell23_date]; norm_num)
    (by decide) rfl]
  rfl

/-! # General theorems about the pipeline -/

/-! ## Characterisation of the signal rule (C4) -/

theorem bullish_cross_iff (s : List PricePoint) (cfg : Config) (t : ℕ) :
    bullish_cross s cfg t = true ↔
      ∃ a b, Short_MA s cfg t = some a ∧ Long_MA s cfg t = some b ∧ b < a := by
  unfold bullish_cross
  cases hS : Short_MA s cfg t with
  | none => simp
  | some a =>
    cases hL : Long_MA s cfg t with
    | none => simp
    | some b => simp

theorem bearish_cross_iff (s : List PricePoint) (cfg : Config) (t : ℕ) :
    bearish_cross s cfg t = true ↔
      ∃ a b, Short_MA s cfg t = some a ∧ Long_MA s cfg t = some b ∧ a < b := by
  unfold bearish_cross
  cases hS : Short_MA s cfg t with
  | none => simp
  | some a =>
    cases hL : Long_MA s cfg t with
    | none => simp
    | some b => simp

theorem rsi_bullish_iff (s : List PricePoint) (t : ℕ) :
    rsi_bullish s t = true ↔ ∃ r, RSI s t = some r ∧ 40 < r ∧ r < 70 := by
  unfold rsi_bullish
  cases hR : RSI s t with
  | none => simp
  | some r => simp

theorem rsi_bearish_iff (s : List PricePoint) (t : ℕ) :
    rsi_bearish s t = true ↔ ∃ r, RSI s t = some r ∧ (r < 60 ∨ 70 < r) := by
  unfold rsi_bearish
  cases hR : RSI s t with
  | none => simp
  | some r => simp

theorem volume_confirmed_iff (s : List PricePoint) (t : ℕ) :
    volume_confirmed s t = true ↔
      ∃ v, Volume_MA s t = some v ∧ v * (8/10) < volumeAt s t := by
  unfold volume_confirmed
  cases hV : Volume_MA s t with
  | none => simp
  | some v => simp

theorem cross_exclusive (s : List PricePoint) (cfg : Config) (t : ℕ)
    (h : bearish_cross s cfg t = true) : bullish_cross s cfg t = false := by
  rcases (bearish_cross_iff s cfg t).mp h with ⟨a, b, ha, hb, hab⟩
  rcases hbull : bullish_cross s cfg t with _ | _
  · rfl
  · rcases (bullish_cross_iff s cfg t).mp hbull with ⟨a', b', ha', hb', hab'⟩
    rw [ha'] at ha
    rw [hb'] at hb
    cases Option.some.inj ha
    cases Option.some.inj hb
    exact absurd hab (not_lt.mpr hab'.le)

/-- C4: the generated `Signal` is `Buy (= 1)` iff the bullish-cross,
RSI-band and volume conditions all hold (each requiring its indicator to
be defined), `Sell (= -1)` iff the bearish-cross and bearish-RSI
conditions hold and the Buy condition does not, and any bar whose
required indicator (`Short_MA`, `Long_MA` or `RSI`) is undefined yields
`Wait (= 0)`. -/
theorem C4_signal_rule (s : List PricePoint) (cfg : Config) (t : ℕ) :
    (Signal s cfg t = 1 ↔
      ((∃ a b, Short_MA s cfg t = some a ∧ Long_MA s cfg t = some b ∧ b < a) ∧
       (∃ r, RSI s t = some r ∧ 40 < r ∧ r < 70) ∧
       (∃ v, Volume_MA s t = some v ∧ v * (8/10) < volumeAt s t))) ∧
    (Signal s cfg t = -1 ↔
      (((∃ a b, Short_MA s cfg t = some a ∧ Long_MA s cfg t = some b ∧ a < b) ∧
        (∃ r, RSI s t = some r ∧ (r < 60 ∨ 70 < r))) ∧
       ¬ ((∃ a b, Short_MA s cfg t = some a ∧ Long_MA s cfg t = some b ∧ b < a) ∧
          (∃ r, RSI s t = some r ∧ 40 < r ∧ r < 70) ∧
          (∃ v, Volume_MA s t = some v ∧ v * (8/10) < volumeAt s t)))) ∧
    ((Short_MA s cfg t = none ∨ Long_MA s cfg t = none ∨ RSI s t = none) →
      Signal s cfg t = 0) := by
  have hbull := bullish_cross_iff s cfg t
  have hbear := bearish_cross_iff s cfg t
  have hrb := rsi_bullish_iff s t
  have hrs := rsi_bearish_iff s t
  have hvc := volume_confirmed_iff s t
  refine ⟨?_, ?_, ?_⟩
  · unfold Signal
    rcases h1 : bearish_cross s cfg t && rsi_bearish s t with _ | _
    · rw [if_neg Bool.false_ne_true]
      rcases h2 : bullish_cross s cfg t && rsi_bullish s t && volume_confirmed s t
        with _ | _
      · rw [if_neg Bool.false_ne_true]
        constructor
        · intro h
          exact absurd h (by norm_num)
        · intro ⟨hb, hr, hv⟩
          have h2' : (bullish_cross s cfg t && rsi_bullish s t &&
              volume_confirmed s t) = true := by
            rw [hbull.mpr hb, hrb.mpr hr, hvc.mpr hv]
            rfl
          rw [h2] at h2'
          exact absurd h2' Bool.false_ne_true
      · rw [if_pos rfl]
        rw [Bool.and_eq_true, Bool.and_eq_true] at h2
        exact ⟨fun _ => ⟨hbull.mp h2.1.1, hrb.mp h2.1.2, hvc.mp h2.2⟩, fun _ => rfl⟩
    · rw [Bool.and_eq_true] at h1
      have hbf := cross_exclusive s cfg t h1.1
      rw [if_pos rfl]
      constructor
      · intro h
        exact absurd h (by norm_num)
      · intro ⟨⟨a, b, ha, hb, hab⟩, _, _⟩
        have hx := hbull.mpr ⟨a, b, ha, hb, hab⟩
        rw [hbf] at hx
        exact absurd hx Bool.false_ne_true
  · unfold Signal
    rcases h1 : bearish_cross s cfg t && rsi_bearish s t with _ | _
    · rw [if_neg Bool.false_ne_true]
      constructor
      · intro h
        rcases h2 : bullish_cross s cfg t && rsi_bullish s t && volume_confirmed s t
          with _ | _
        · rw [h2, if_neg Bool.false_ne_true] at h
          exact absurd h (by norm_num)
        · rw [h2, if_pos rfl] at h
          exact absurd h (by norm_num)
      · intro ⟨⟨hb, hr⟩, _⟩
        have h1' : (bearish_cross s cfg t && rsi_bearish s t) = true := by
          rw [hbear.mpr hb, hrs.mpr hr]
          rfl
        rw [h1] at h1'
        exact absurd h1' Bool.false_ne_true
    · rw [if_pos rfl]
      rw [Bool.and_eq_true] at h1
      have hbf := cross_exclusive s cfg t h1.1
      refine ⟨fun _ => ⟨⟨hbear.mp h1.1, hrs.mp h1.2⟩, ?_⟩, fun _ => rfl⟩
      intro ⟨hb, _, _⟩
      have hx := hbull.mpr hb
      rw [hbf] at hx
      exact absurd hx Bool.false_ne_true
  · intro h
    have hz1 : (bearish_cross s cfg t && rsi_bearish s t) = false := by
      rcases hx : bearish_cross s cfg t && rsi_bearish s t with _ | _
      · rfl
      · rw [Bool.and_eq_true] at hx
        rcases h with h | h | h
        · rcases hbear.mp hx.1 with ⟨a, b, ha, _, _⟩
          rw [h] at ha
          cases ha
        · rcases hbear.mp hx.1 with ⟨a, b, _, hb, _⟩
          rw [h] at hb
          cases hb
        · rcases hrs.mp hx.2 with ⟨r, hr, _⟩
          rw [h] at hr
          cases hr
    have hz2 : (bullish_cross s cfg t && rsi_bullish s t &&
        volume_confirmed s t) = false := by
      rcases hx : bullish_cross s cfg t && rsi_bullish s t &&
          volume_confirmed s t with _ | _
      · rfl
      · rw [Bool.and_eq_true, Bool.and_eq_true] at hx
        rcases h with h | h | h
        · rcases hbull.mp hx.1.1 with ⟨a, b, ha, _, _⟩
          rw [h] at ha
          cases ha
        · rcases hbull.mp hx.1.1 with ⟨a, b, _, hb, _⟩
          rw [h] at hb
          cases hb
        · rcases hrb.mp hx.1.2 with ⟨r, hr, _⟩
          rw [h] at hr
          cases hr
    unfold Signal
    rw [hz1, hz2, if_neg Bool.false_ne_true, if_neg Bool.false_ne_true]

/-! ## RSI division guard (C5) -/

/-- Amended C5: when the 14-bar average loss is zero and the average
gain is strictly positive, the RSI is exactly `100`.  (When both
averages are zero the quotient is `0.0/0.0 = NaN` and the RSI is
undefined — see the counterexample.) -/
theorem C5_rsi_100 (s : List PricePoint) (t : ℕ) (g : ℚ)
    (hl : avg_loss s t = some 0) (hg : avg_gain s t = some g)
    (hgpos : 0 < g) : RSI s t = some 100 := by
  unfold RSI
  rw [hg, hl]
  show (if (0:ℚ) < 0 then some (100 - 100 / (1 + g / 0)) else
    if 0 < g then some (100:ℚ) else none) = some 100
  rw [if_neg (lt_irrefl 0), if_pos hgpos]

/-! ## Sizing (C6, C7) -/

theorem pyInt_of_nonneg (q : ℚ) (h : 0 ≤ q) : pyInt q = ⌊q⌋ := if_pos h

theorem pyInt_nonpos (q : ℚ) (h : q ≤ 0) : pyInt q ≤ 0 := by
  unfold pyInt
  rcases le_or_lt 0 q with h0 | h0
  · rw [if_pos h0]
    exact Int.floor_nonpos h
  · rw [if_neg (not_le.mpr h0)]
    have : (0 : ℤ) ≤ ⌊-q⌋ := Int.floor_nonneg.mpr (by linarith)
    omega

/-- Amended C6: whenever the running capital at entry is at least the
entry price (and the price is positive), the clamped position size never
oversubscribes the capital: `size * price ≤ capital`.  (When the price
exceeds the capital, the `max(1, ยท)` clamp forces one share and the
capital is oversubscribed — see the counterexample.) -/
theorem C6_size_within_capital (risk cap price : ℚ) (atr : Option ℚ)
    (hp : 0 < price) (hcap : price ≤ cap) :
    ((position_sie risk cap atr price : ℤ) : ℚ) * price ≤ cap := by
  have hc0 : (0 : ℚ) ≤ cap := le_trans hp.le hcap
  have hq1 : (1 : ℚ) ≤ cap / price := (one_le_div hp).mpr hcap
  have hfloor1 : (1 : ℤ) ≤ ⌊cap / price⌋ := by
    rw [Int.le_floor]
    exact_mod_cast hq1
  have hEq : pyInt (cap / price) = ⌊cap / price⌋ :=
    pyInt_of_nonneg _ (by positivity)
  have hle : position_sie risk cap atr price ≤ ⌊cap / price⌋ := by
    unfold position_sie
    rw [hEq]
    exact max_le hfloor1 (min_le_right _ _)
  have hcast : ((position_sie risk cap atr price : ℤ) : ℚ) ≤ cap / price :=
    le_trans (by exact_mod_cast hle) (Int.floor_le _)
  calc ((position_sie risk cap atr price : ℤ) : ℚ) * price
      ≤ (cap / price) * price := by
        exact mul_le_mul_of_nonneg_right hcast hp.le
    _ = cap := div_mul_cancel₀ cap (ne_of_gt hp)

/-- The position-sizing formula exactly as §4.3 of the spec words it
(with mathematical `floor` instead of Python `int`): this is the
spec-side definition against which the code's `position_sie` is
compared. -/
def position_size_spec (risk cap : ℚ) (atr : Option ℚ) (price : ℚ) : ℤ :=
  let raw : ℤ :=
    match atr with
    | some a => if 0 < a then ⌊cap * risk / (a * 2)⌋ else 100
    | none => 100
  max 1 (min raw ⌊cap / price⌋)

/-- C7: for a nonnegative risk fraction and a positive entry price, the
code's truncation-based position size agrees with the spec's floor-based
formula at every capital (including negative running capital, where the
`max 1` clamp absorbs the `int`-vs-`floor` difference). -/
theorem C7_position_size (risk cap price : ℚ) (atr : Option ℚ)
    (hr : 0 ≤ risk) (hp : 0 < price) :
    position_sie risk cap atr price = position_size_spec risk cap atr price := by
  rcases atr with _ | a
  · show max 1 (min 100 (pyInt (cap / price))) = max 1 (min 100 ⌊cap / price⌋)
    rcases le_or_lt 0 cap with hc | hc
    · rw [pyInt_of_nonneg (cap / price) (by positivity)]
    · have hdiv : cap / price < 0 := div_neg_of_neg_of_pos hc hp
      have hL : pyInt (cap / price) ≤ 0 := pyInt_nonpos _ hdiv.le
      have hR : ⌊cap / price⌋ ≤ 0 := Int.floor_nonpos hdiv.le
      rw [max_eq_left (le_trans (min_le_right _ _) (by omega)),
        max_eq_left (le_trans (min_le_right _ _) (by omega))]
  · show max 1 (min (if 0 < a then pyInt (cap * risk / (a * 2)) else 100)
        (pyInt (cap / price))) =
      max 1 (min (if 0 < a then ⌊cap * risk / (a * 2)⌋ else 100) ⌊cap / price⌋)
    rcases le_or_lt 0 cap with hc | hc
    · rw [pyInt_of_nonneg (cap / price) (by positivity)]
      by_cases ha : 0 < a
      · rw [if_pos ha, if_pos ha,
          pyInt_of_nonneg _ (div_nonneg (mul_nonneg hc hr) (by linarith))]
      · rw [if_neg ha, if_neg ha]
    · have hdiv : cap / price < 0 := div_neg_of_neg_of_pos hc hp
      have hL : pyInt (cap / price) ≤ 0 := pyInt_nonpos _ hdiv.le
      have hR : ⌊cap / price⌋ ≤ 0 := Int.floor_nonpos hdiv.le
      rw [max_eq_left (le_trans (min_le_right _ _) (by omega)),
        max_eq_left (le_trans (min_le_right _ _) (by omega))]

/-! ## Determinism (C9) -/

/-- C9: the full pipeline is a pure function of the price series and the
configuration; running it twice on equal inputs yields equal trade
lists, final capitals and metrics reports. -/
theorem C9_deterministic (s₁ s₂ : List PricePoint) (cfg₁ cfg₂ : Config)
    (hs : s₁ = s₂) (hc : cfg₁ = cfg₂) :
    runPipeline s₁ cfg₁ = runPipeline s₂ cfg₂ := by
  rw [hs, hc]

/-! ## Event extraction (C2) -/

/-- The entry-event bars as the spec words them: bars where the signal
transitions into `Buy (= 1)` from a non-Buy previous state. -/
def specEntryBars (sig : List ℤ) : List ℕ :=
  (List.range sig.length).filter
    (fun t => decide (1 ≤ t) && decide (sig.getD t 0 = 1) &&
      decide (sig.getD (t - 1) 0 ≠ 1))

/-- The exit-event bars as the spec words them: bars where the signal
transitions into `Sell (= -1)` from a non-Sell previous state. -/
def specExitBars (sig : List ℤ) : List ℕ :=
  (List.range sig.length).filter
    (fun t => decide (1 ≤ t) && decide (sig.getD t 0 = -1) &&
      decide (sig.getD (t - 1) 0 ≠ -1))

theorem getD_mem_of_lt (l : List ℤ) (n : ℕ) (d : ℤ) (h : n < l.length) :
    l.getD n d ∈ l := by
  rw [List.getD_eq_getElem l d h]
  exact List.getElem_mem h

/-- Amended C2: on signal values in `{-1, 0, 1}`, the code's entry
events (`diff == 1`) are exactly the bars whose (previous, current)
signal pair is `(Wait, Buy)` or `(Sell, Wait)`, and its exit events
(`diff == -1`) are exactly the bars with pair `(Buy, Wait)` or
`(Wait, Sell)`; direct `Sell→Buy` (diff `2`) and `Buy→Sell` (diff `-2`)
transitions produce no event. -/
theorem C2_event_characterisation (sig : List ℤ)
    (h : ∀ x ∈ sig, x = -1 ∨ x = 0 ∨ x = 1) :
    buyEventBars sig = (List.range sig.length).filter
      (fun t => decide (1 ≤ t) &&
        ((decide (sig.getD (t - 1) 0 = 0) && decide (sig.getD t 0 = 1)) ||
         (decide (sig.getD (t - 1) 0 = -1) && decide (sig.getD t 0 = 0)))) ∧
    sellEventBars sig = (List.range sig.length).filter
      (fun t => decide (1 ≤ t) &&
        ((decide (sig.getD (t - 1) 0 = 1) && decide (sig.getD t 0 = 0)) ||
         (decide (sig.getD (t - 1) 0 = 0) && decide (sig.getD t 0 = -1)))) := by
  constructor
  · unfold buyEventBars
    refine List.filter_congr ?_
    intro t ht
    rw [List.mem_range] at ht
    have hm : sig.getD t 0 ∈ sig := getD_mem_of_lt sig t 0 ht
    have hm' : sig.getD (t - 1) 0 ∈ sig :=
      getD_mem_of_lt sig (t - 1) 0 (lt_of_le_of_lt (Nat.sub_le t 1) ht)
    rcases h _ hm with ha | ha | ha <;> rcases h _ hm' with hb | hb | hb <;>
      rw [ha, hb] <;> rfl
  · unfold sellEventBars
    refine List.filter_congr ?_
    intro t ht
    rw [List.mem_range] at ht
    have hm : sig.getD t 0 ∈ sig := getD_mem_of_lt sig t 0 ht
    have hm' : sig.getD (t - 1) 0 ∈ sig :=
      getD_mem_of_lt sig (t - 1) 0 (lt_of_le_of_lt (Nat.sub_le t 1) ht)
    rcases h _ hm with ha | ha | ha <;> rcases h _ hm' with hb | hb | hb <;>
      rw [ha, hb] <;> rfl

/-! ## Short-history behaviour (C8) -/

theorem rollingMean_some_window (w t : ℕ) (xs : List ℚ) (v : ℚ)
    (h : rollingMean w xs t = some v) : w ≤ t + 1 ∧ t < xs.length := by
  unfold rollingMean at h
  by_cases hc : w ≤ t + 1 ∧ t < xs.length
  · exact hc
  · rw [if_neg hc] at h
    cases h

theorem bearish_cross_false_of_long_none (s : List PricePoint) (cfg : Config)
    (t : ℕ) (h : Long_MA s cfg t = none) : bearish_cross s cfg t = false := by
  unfold bearish_cross
  rw [h]
  cases Short_MA s cfg t <;> rfl

theorem bullish_cross_false_of_long_none (s : List PricePoint) (cfg : Config)
    (t : ℕ) (h : Long_MA s cfg t = none) : bullish_cross s cfg t = false := by
  unfold bullish_cross
  rw [h]
  cases Short_MA s cfg t <;> rfl

theorem Signal_eq_zero_of_no_cross (s : List PricePoint) (cfg : Config) (t : ℕ)
    (h1 : bearish_cross s cfg t = false) (h2 : bullish_cross s cfg t = false) :
    Signal s cfg t = 0 := by
  unfold Signal
  rw [h1, h2]
  rfl

/-- A non-`Wait` signal needs a defined `Long_MA`, hence a full long
window. -/
theorem Signal_ne_zero_window (s : List PricePoint) (cfg : Config) (t : ℕ)
    (h : Signal s cfg t ≠ 0) : cfg.long_window ≤ t + 1 ∧ t < s.length := by
  cases hLM : Long_MA s cfg t with
  | none =>
    exact absurd (Signal_eq_zero_of_no_cross s cfg t
      (bearish_cross_false_of_long_none s cfg t hLM)
      (bullish_cross_false_of_long_none s cfg t hLM)) h
  | some b =>
    have hw := rollingMean_some_window cfg.long_window t (closes s) b hLM
    refine ⟨hw.1, ?_⟩
    have : (closes s).length = s.length := List.length_map s _
    omega

theorem generate_signals_length (s : List PricePoint) (cfg : Config) :
    (generate_signals s cfg).length = s.length := by
  simp [generate_signals]

theorem generate_signals_getD (s : List PricePoint) (cfg : Config) (u : ℕ)
    (hu : u < s.length) :
    (generate_signals s cfg).getD u 0 = Signal s cfg u := by
  unfold generate_signals
  rw [List.getD_eq_getElem _ _ (by simpa using hu)]
  simp

theorem mem_buyEventBars (sig : List ℤ) (t : ℕ) (h : t ∈ buyEventBars sig) :
    1 ≤ t ∧ t < sig.length ∧ sig.getD t 0 - sig.getD (t - 1) 0 = 1 := by
  unfold buyEventBars at h
  rw [List.mem_filter] at h
  obtain ⟨hr, hb⟩ := h
  rw [List.mem_range] at hr
  rw [Bool.and_eq_true, decide_eq_true_eq, decide_eq_true_eq] at hb
  exact ⟨hb.1, hr, hb.2⟩

theorem mem_sellEventBars (sig : List ℤ) (t : ℕ) (h : t ∈ sellEventBars sig) :
    1 ≤ t ∧ t < sig.length ∧ sig.getD t 0 - sig.getD (t - 1) 0 = -1 := by
  unfold sellEventBars at h
  rw [List.mem_filter] at h
  obtain ⟨hr, hb⟩ := h
  rw [List.mem_range] at hr
  rw [Bool.and_eq_true, decide_eq_true_eq, decide_eq_true_eq] at hb
  exact ⟨hb.1, hr, hb.2⟩

theorem pairTrades_sells_nil (risk cap : ℚ) (buys : List Event) (i : ℕ) :
    pairTrades [] risk buys i cap = ([], cap) := by
  cases buys with
  | nil => simp only [pairTrades]
  | cons b rest =>
    simp only [pairTrades, List.length_nil]
    rw [if_neg (Nat.not_lt_zero i)]

/-- Amended C8: a series shorter than `long_window + 1` bars produces no
trades, leaves the capital at the initial capital, and yields a `None`
metrics report; every bar except possibly the last signals `Wait`.  (The
indicators with shorter windows can be defined at late bars, and when
`length = long_window` the last bar itself may signal non-`Wait` — see
the counterexample — but no trade can be paired from a single event.) -/
theorem C8_short_series (s : List PricePoint) (cfg : Config)
    (h : s.length < cfg.long_window + 1) :
    (execute_backtest s cfg).1 = [] ∧
    (execute_backtest s cfg).2 = cfg.initial_capital ∧
    calculate_metrics cfg (execute_backtest s cfg).1
      (execute_backtest s cfg).2 = none ∧
    (∀ t, t + 1 < s.length → Signal s cfg t = 0) := by
  have hn : s.length ≤ cfg.long_window := by omega
  have hsig0 : ∀ t, t + 1 < s.length → Signal s cfg t = 0 := by
    intro t ht
    by_contra hz
    obtain ⟨hw, hts⟩ := Signal_ne_zero_window s cfg t hz
    omega
  have hlen := generate_signals_length s cfg
  have hkey : ∀ (t : ℕ) (d : ℤ), 1 ≤ t → t < s.length →
      (generate_signals s cfg).getD t 0 -
        (generate_signals s cfg).getD (t - 1) 0 = d →
      d ≠ 0 → Signal s cfg t = d := by
    intro t d h1 ht hdiff hd0
    rw [generate_signals_getD s cfg t ht,
      generate_signals_getD s cfg (t - 1) (by omega)] at hdiff
    have hprev : Signal s cfg (t - 1) = 0 := by
      by_contra hz
      obtain ⟨hw, _⟩ := Signal_ne_zero_window s cfg (t - 1) hz
      omega
    rw [hprev, sub_zero] at hdiff
    rw [hdiff]
  have htr : (execute_backtest s cfg).1 = [] ∧
      (execute_backtest s cfg).2 = cfg.initial_capital := by
    by_cases hb : buy_signals s cfg = []
    · unfold execute_backtest
      rw [hb, pairTrades_nil]
      exact ⟨rfl, rfl⟩
    · have hs : sell_signals s cfg = [] := by
        by_contra hsne
        obtain ⟨eb, heb⟩ := List.exists_mem_of_ne_nil _ hb
        obtain ⟨es, hes⟩ := List.exists_mem_of_ne_nil _ hsne
        unfold buy_signals at heb
        rw [List.mem_map] at heb
        obtain ⟨tb, htb, _⟩ := heb
        unfold sell_signals at hes
        rw [List.mem_map] at hes
        obtain ⟨ts, hts, _⟩ := hes
        obtain ⟨hb1, hb2, hb3⟩ := mem_buyEventBars _ _ htb
        obtain ⟨hs1, hs2, hs3⟩ := mem_sellEventBars _ _ hts
        rw [hlen] at hb2 hs2
        have hbv := hkey tb 1 hb1 hb2 hb3 (by norm_num)
        have hsv := hkey ts (-1) hs1 hs2 hs3 (by norm_num)
        have hb0 : Signal s cfg tb ≠ 0 := by
          rw [hbv]
          norm_num
        have hs0 : Signal s cfg ts ≠ 0 := by
          rw [hsv]
          norm_num
        obtain ⟨hwb, htb'⟩ := Signal_ne_zero_window s cfg tb hb0
        obtain ⟨hws, hts'⟩ := Signal_ne_zero_window s cfg ts hs0
        have : tb = ts := by omega
        rw [this, hsv] at hbv
        norm_num at hbv
      unfold execute_backtest
      rw [hs, pairTrades_sells_nil]
      exact ⟨rfl, rfl⟩
  refine ⟨htr.1, htr.2, ?_, hsig0⟩
  rw [htr.1]
  rfl

/-! ## Partial ordering of the paired trades (C1) -/

theorem findSellIdx_spec (d : ℤ) : ∀ (sells : List Event) (i : ℕ),
    findSellIdx d sells = i → ∀ (h : i < sells.length),
    d < (sells.get ⟨i, h⟩).date := by
  intro sells
  induction sells with
  | nil =>
    intro i hi h
    simp at h
  | cons sEv rest ih =>
    intro i hi h
    unfold findSellIdx at hi
    by_cases hd : d < sEv.date
    · rw [if_pos hd] at hi
      subst hi
      exact hd
    · rw [if_neg hd] at hi
      cases i with
      | zero => exact absurd hi (by omega)
      | succ j =>
        have hj : findSellIdx d rest = j := by omega
        exact ih j hj (by simpa using h)

theorem pairTrades_exit_after_entry (sells : List Event) (risk : ℚ) :
    ∀ (buys : List Event) (i : ℕ) (cap : ℚ),
    ∀ tr ∈ (pairTrades sells risk buys i cap).1, tr.buy_date < tr.sell_date := by
  intro buys
  induction buys with
  | nil =>
    intro i cap tr htr
    rw [pairTrades_nil] at htr
    exact absurd htr (List.not_mem_nil tr)
  | cons b rest ih =>
    intro i cap tr htr
    by_cases hs : i < sells.length
    · by_cases hf : findSellIdx b.date sells < sells.length
      · rw [pairTrades_cons sells risk cap b
          (sells.get ⟨findSellIdx b.date sells, hf⟩) rest i
          (findSellIdx b.date sells) hs rfl hf rfl] at htr
        rcases List.mem_cons.mp htr with heq | hmem
        · subst heq
          show b.date < (sells.get ⟨findSellIdx b.date sells, hf⟩).date
          exact findSellIdx_spec b.date sells _ rfl hf
        · exact ih _ _ tr hmem
      · simp only [pairTrades, if_pos hs, dif_neg hf] at htr
        exact absurd htr (List.not_mem_nil tr)
    · simp only [pairTrades, if_neg hs] at htr
      exact absurd htr (List.not_mem_nil tr)

theorem pairTrades_buy_dates (sells : List Event) (risk : ℚ) :
    ∀ (buys : List Event) (i : ℕ) (cap : ℚ),
    ∃ k, ((pairTrades sells risk buys i cap).1).map (fun tr => tr.buy_date) =
      (buys.take k).map (fun e => e.date) := by
  intro buys
  induction buys with
  | nil =>
    intro i cap
    exact ⟨0, by rw [pairTrades_nil]; rfl⟩
  | cons b rest ih =>
    intro i cap
    by_cases hs : i < sells.length
    · by_cases hf : findSellIdx b.date sells < sells.length
      · obtain ⟨k, hk⟩ := ih (findSellIdx b.date sells + 1)
          (mkTrade risk cap b (sells.get ⟨findSellIdx b.date sells, hf⟩)).2
        refine ⟨k + 1, ?_⟩
        rw [pairTrades_cons sells risk cap b
          (sells.get ⟨findSellIdx b.date sells, hf⟩) rest i
          (findSellIdx b.date sells) hs rfl hf rfl]
        rw [List.map_cons, hk, List.take_succ_cons, List.map_cons]
        rfl
      · refine ⟨0, ?_⟩
        simp only [pairTrades, if_pos hs, dif_neg hf]
        rfl
    · refine ⟨0, ?_⟩
      simp only [pairTrades, if_neg hs]
      rfl

/-- Amended C1: each trade exits strictly after its own entry, and the
entry dates of the trade list are strictly increasing (each trade's
entry is strictly after the *previous trade's entry*).  The original
non-overlap property — entry of trade `i+1` strictly after exit of trade
`i`, with no exit consumed twice — fails: see the counterexample. -/
theorem C1_trade_ordering (s : List PricePoint) (cfg : Config)
    (hdates : (dates s).Pairwise (· < ·)) :
    (∀ tr ∈ (execute_backtest s cfg).1, tr.buy_date < tr.sell_date) ∧
    (((execute_backtest s cfg).1.map (fun tr => tr.buy_date)).Pairwise
      (· < ·)) := by
  constructor
  · intro tr htr
    exact pairTrades_exit_after_entry _ _ _ _ _ tr htr
  · obtain ⟨k, hk⟩ := pairTrades_buy_dates (sell_signals s cfg)
      cfg.risk_per_trade (buy_signals s cfg) 0 cfg.initial_capital
    have hbars : (buyEventBars (generate_signals s cfg)).Pairwise (· < ·) :=
      (List.pairwise_lt_range _).filter _
    have hdlen : (dates s).length = s.length := List.length_map s _
    have hmemb : ∀ t ∈ buyEventBars (generate_signals s cfg), t < s.length := by
      intro t ht
      have h2 := (mem_buyEventBars _ _ ht).2.1
      rwa [generate_signals_length] at h2
    have hbars' : (buyEventBars (generate_signals s cfg)).Pairwise
        (fun t u => (dates s).getD t 0 < (dates s).getD u 0) := by
      refine hbars.imp_of_mem ?_
      intro a b hma hmb hab
      have ha' := hmemb a hma
      have hb' := hmemb b hmb
      rw [List.getD_eq_getElem (dates s) 0 (by omega : a < (dates s).length),
        List.getD_eq_getElem (dates s) 0 (by omega : b < (dates s).length)]
      exact List.pairwise_iff_getElem.mp hdates a b (by omega) (by omega) hab
    unfold execute_backtest
    rw [hk]
    show (((((buyEventBars (generate_signals s cfg)).map (mkEvent s)).take
      k).map (fun e => e.date))).Pairwise (· < ·)
    rw [← List.map_take, List.map_map]
    refine List.pairwise_map.mpr ?_
    refine ((hbars'.sublist (List.take_sublist _ _)).imp ?_)
    intro a b hab
    exact hab

/-! ## Ghost capital threading (C3, C10) -/

theorem pairFull_cons (sells : List Event) (risk cap : ℚ) (b sEv : Event)
    (rest : List Event) (sell_idx i : ℕ) (hs : sell_idx < sells.length)
    (hi : findSellIdx b.date sells = i) (h : i < sells.length)
    (hget : sells.get ⟨i, h⟩ = sEv) :
    pairFull sells risk (b :: rest) sell_idx cap =
      (b, sEv, cap) ::
        pairFull sells risk rest (i + 1) (mkTrade risk cap b sEv).2 := by
  rw [pairFull, if_pos hs]
  simp only [hi, dif_pos h, hget]

/-- `execute_backtest`'s trade list is the image of the ghost list that
pairs every trade with the exact running capital at its entry. -/
theorem pairFull_proj (sells : List Event) (risk : ℚ) :
    ∀ (buys : List Event) (i : ℕ) (cap : ℚ),
    (pairTrades sells risk buys i cap).1 =
      (pairFull sells risk buys i cap).map
        (fun g => (mkTrade risk g.2.2 g.1 g.2.1).1) := by
  intro buys
  induction buys with
  | nil =>
    intro i cap
    rw [pairTrades_nil]
    rfl
  | cons b rest ih =>
    intro i cap
    by_cases hs : i < sells.length
    · by_cases hf : findSellIdx b.date sells < sells.length
      · rw [pairTrades_cons sells risk cap b
          (sells.get ⟨findSellIdx b.date sells, hf⟩) rest i
          (findSellIdx b.date sells) hs rfl hf rfl]
        rw [pairFull_cons sells risk cap b
          (sells.get ⟨findSellIdx b.date sells, hf⟩) rest i
          (findSellIdx b.date sells) hs rfl hf rfl]
        rw [List.map_cons, ih]
      · simp only [pairTrades, pairFull, if_pos hs, dif_neg hf]
        rfl
    · simp only [pairTrades, pairFull, if_neg hs]
      rfl

/-- The first ghost entry (if any) carries the initial capital as its
capital-at-entry. -/
theorem pairFull_head (sells : List Event) (risk : ℚ) :
    ∀ (buys : List Event) (i : ℕ) (cap : ℚ) (g : Event × Event × ℚ),
    (pairFull sells risk buys i cap).head? = some g → g.2.2 = cap := by
  intro buys i cap g h
  cases buys with
  | nil =>
    simp only [pairFull] at h
    cases h
  | cons b rest =>
    by_cases hs : i < sells.length
    · by_cases hf : findSellIdx b.date sells < sells.length
      · rw [pairFull_cons sells risk cap b
          (sells.get ⟨findSellIdx b.date sells, hf⟩) rest i
          (findSellIdx b.date sells) hs rfl hf rfl, List.head?_cons] at h
        injection h with h'
        subst h'
        rfl
      · simp only [pairFull, if_pos hs, dif_neg hf] at h
        cases h
    · simp only [pairFull, if_neg hs] at h
      cases h

/-- The capital-at-entry of each ghost entry is exactly the previous
entry's capital-at-entry plus the previous trade's (unrounded) profit:
the loop threads the unrounded running capital. -/
theorem pairFull_chain (sells : List Event) (risk : ℚ) :
    ∀ (buys : List Event) (i : ℕ) (cap : ℚ),
    (pairFull sells risk buys i cap).Chain'
      (fun g g' => g'.2.2 = (mkTrade risk g.2.2 g.1 g.2.1).2) := by
  intro buys
  induction buys with
  | nil =>
    intro i cap
    simp only [pairFull]
    exact List.chain'_nil
  | cons b rest ih =>
    intro i cap
    by_cases hs : i < sells.length
    · by_cases hf : findSellIdx b.date sells < sells.length
      · rw [pairFull_cons sells risk cap b
          (sells.get ⟨findSellIdx b.date sells, hf⟩) rest i
          (findSellIdx b.date sells) hs rfl hf rfl]
        refine List.chain'_cons'.mpr ⟨?_, ih _ _⟩
        intro g' hg'
        rw [pairFull_head sells risk rest _ _ g' hg']
      · simp only [pairFull, if_pos hs, dif_neg hf]
        exact List.chain'_nil
    · simp only [pairFull, if_neg hs]
      exact List.chain'_nil

/-! ## Concrete series for the RSI guard (C5) and the short-history
boundary (C8) -/

/-- Fifteen constant bars: every delta is zero. -/
def seriesFlat : List PricePoint :=
  [bar 0 100, bar 1 100, bar 2 100, bar 3 100, bar 4 100, bar 5 100,
   bar 6 100, bar 7 100, bar 8 100, bar 9 100, bar 10 100, bar 11 100,
   bar 12 100, bar 13 100, bar 14 100]

/-- One up-move then constant: gains present, losses all zero. -/
def seriesUp : List PricePoint :=
  [bar 0 100, bar 1 101, bar 2 101, bar 3 101, bar 4 101, bar 5 101,
   bar 6 101, bar 7 101, bar 8 101, bar 9 101, bar 10 101, bar 11 101,
   bar 12 101, bar 13 101, bar 14 101]

/-- Fifteen strictly decreasing bars. -/
def seriesDown : List PricePoint :=
  [bar 0 100, bar 1 99, bar 2 98, bar 3 97, bar 4 96, bar 5 95,
   bar 6 94, bar 7 93, bar 8 92, bar 9 91, bar 10 90, bar 11 89,
   bar 12 88, bar 13 87, bar 14 86]

/-- Windows `14/15` so that a 15-bar series is exactly one bar short of
`long_window + 1`. -/
def cfgDown : Config :=
  { short_window := 14, long_window := 15, initial_capital := 10000,
    risk_per_trade := 2/100, stop_loss_pct := 5/100 }

/-- Three constant bars (shorter than every indicator window). -/
def series3 : List PricePoint := [bar 0 100, bar 1 100, bar 2 100]

theorem losses_seriesFlat : losses seriesFlat =
    [0, 0, 0, 0, 0, 0, 0, 0, 0, 0, 0, 0, 0, 0, 0] := by
  norm_num [losses, deltas, closes, seriesFlat, bar, List.drop_one, max_def]

theorem gains_seriesFlat : gains seriesFlat =
    [0, 0, 0, 0, 0, 0, 0, 0, 0, 0, 0, 0, 0, 0, 0] := by
  norm_num [gains, deltas, closes, seriesFlat, bar, List.drop_one, max_def]

theorem avg_loss_seriesFlat : avg_loss seriesFlat 14 = some 0 := by
  show rollingMean 14 (losses seriesFlat) 14 = _
  rw [losses_seriesFlat]
  exact rollingMean_eq 14 14 _ 0 (by norm_num) (by norm_num) (by decide)
    (show (([0, 0, 0, 0, 0, 0, 0, 0, 0, 0, 0, 0, 0, 0] : List ℚ)).sum =
      0 * 14 by norm_num)

theorem avg_gain_seriesFlat : avg_gain seriesFlat 14 = some 0 := by
  show rollingMean 14 (gains seriesFlat) 14 = _
  rw [gains_seriesFlat]
  exact rollingMean_eq 14 14 _ 0 (by norm_num) (by norm_num) (by decide)
    (show (([0, 0, 0, 0, 0, 0, 0, 0, 0, 0, 0, 0, 0, 0] : List ℚ)).sum =
      0 * 14 by norm_num)

theorem RSI_seriesFlat : RSI seriesFlat 14 = none := by
  unfold RSI
  rw [avg_gain_seriesFlat, avg_loss_seriesFlat]
  show (if (0:ℚ) < 0 then some (100 - 100 / (1 + (0:ℚ) / 0)) else
    if (0:ℚ) < 0 then some (100:ℚ) else none) = none
  rw [if_neg (lt_irrefl 0), if_neg (lt_irrefl 0)]

theorem losses_seriesUp : losses seriesUp =
    [0, 0, 0, 0, 0, 0, 0, 0, 0, 0, 0, 0, 0, 0, 0] := by
  norm_num [losses, deltas, closes, seriesUp, bar, List.drop_one, max_def]

theorem gains_seriesUp : gains seriesUp =
    [0, 1, 0, 0, 0, 0, 0, 0, 0, 0, 0, 0, 0, 0, 0] := by
  norm_num [gains, deltas, closes, seriesUp, bar, List.drop_one, max_def]

theorem avg_loss_seriesUp : avg_loss seriesUp 14 = some 0 := by
  show rollingMean 14 (losses seriesUp) 14 = _
  rw [losses_seriesUp]
  exact rollingMean_eq 14 14 _ 0 (by norm_num) (by norm_num) (by decide)
    (show (([0, 0, 0, 0, 0, 0, 0, 0, 0, 0, 0, 0, 0, 0] : List ℚ)).sum =
      0 * 14 by norm_num)

theorem avg_gain_seriesUp : avg_gain seriesUp 14 = some (1/14) := by
  show rollingMean 14 (gains seriesUp) 14 = _
  rw [gains_seriesUp]
  exact rollingMean_eq 14 14 _ (1/14) (by norm_num) (by norm_num) (by decide)
    (show (([1, 0, 0, 0, 0, 0, 0, 0, 0, 0, 0, 0, 0, 0] : List ℚ)).sum =
      (1/14) * 14 by norm_num)

theorem gains_seriesDown : gains seriesDown =
    [0, 0, 0, 0, 0, 0, 0, 0, 0, 0, 0, 0, 0, 0, 0] := by
  norm_num [gains, deltas, closes, seriesDown, bar, List.drop_one, max_def]

theorem losses_seriesDown : losses seriesDown =
    [0, 1, 1, 1, 1, 1, 1, 1, 1, 1, 1, 1, 1, 1, 1] := by
  norm_num [losses, deltas, closes, seriesDown, bar, List.drop_one, max_def]

theorem avg_gain_seriesDown : avg_gain seriesDown 14 = some 0 := by
  show rollingMean 14 (gains seriesDown) 14 = _
  rw [gains_seriesDown]
  exact rollingMean_eq 14 14 _ 0 (by norm_num) (by norm_num) (by decide)
    (show (([0, 0, 0, 0, 0, 0, 0, 0, 0, 0, 0, 0, 0, 0] : List ℚ)).sum =
      0 * 14 by norm_num)

theorem avg_loss_seriesDown : avg_loss seriesDown 14 = some 1 := by
  show rollingMean 14 (losses seriesDown) 14 = _
  rw [losses_seriesDown]
  exact rollingMean_eq 14 14 _ 1 (by norm_num) (by norm_num) (by decide)
    (show (([1, 1, 1, 1, 1, 1, 1, 1, 1, 1, 1, 1, 1, 1] : List ℚ)).sum =
      1 * 14 by norm_num)

theorem RSI_seriesDown : RSI seriesDown 14 = some 0 := by
  unfold RSI
  rw [avg_gain_seriesDown, avg_loss_seriesDown]
  show (if (0:ℚ) < 1 then some (100 - 100 / (1 + (0:ℚ) / 1)) else
    if (0:ℚ) < 0 then some (100:ℚ) else none) = some 0
  rw [if_pos (by norm_num)]
  norm_num

theorem shortMA_seriesDown_13 : Short_MA seriesDown cfgDown 13 = some (187/2) :=
  rollingMean_eq 14 13 (closes seriesDown) (187/2) (by norm_num) (by norm_num)
    (by decide)
    (show (([100, 99, 98, 97, 96, 95, 94, 93, 92, 91, 90, 89, 88, 87] :
      List ℚ)).sum = (187/2) * 14 by norm_num)

theorem shortMA_seriesDown_14 : Short_MA seriesDown cfgDown 14 = some (185/2) :=
  rollingMean_eq 14 14 (closes seriesDown) (185/2) (by norm_num) (by norm_num)
    (by decide)
    (show (([99, 98, 97, 96, 95, 94, 93, 92, 91, 90, 89, 88, 87, 86] :
      List ℚ)).sum = (185/2) * 14 by norm_num)

theorem longMA_seriesDown_14 : Long_MA seriesDown cfgDown 14 = some 93 :=
  rollingMean_eq 15 14 (closes seriesDown) 93 (by norm_num) (by norm_num)
    (by decide)
    (show (([100, 99, 98, 97, 96, 95, 94, 93, 92, 91, 90, 89, 88, 87, 86] :
      List ℚ)).sum = (93 : ℚ) * 15 by norm_num)

theorem bear_seriesDown_14 : bearish_cross seriesDown cfgDown 14 = true := by
  unfold bearish_cross
  rw [shortMA_seriesDown_14, longMA_seriesDown_14]
  simp only [decide_eq_true_eq]
  norm_num

theorem rsibear_seriesDown_14 : rsi_bearish seriesDown 14 = true := by
  unfold rsi_bearish
  rw [RSI_seriesDown]
  simp only [Bool.or_eq_true, decide_eq_true_eq]
  norm_num

theorem sig_seriesDown_14 : Signal seriesDown cfgDown 14 = -1 :=
  Signal_eq_neg_one seriesDown cfgDown 14 bear_seriesDown_14 rsibear_seriesDown_14

/-- The ghost run of a backtest: every paired trade together with the
exact (unrounded) running capital at its entry. -/
def backtestGhost (s : List PricePoint) (cfg : Config) :
    List (Event × Event × ℚ) :=
  pairFull (sell_signals s cfg) cfg.risk_per_trade (buy_signals s cfg) 0
    cfg.initial_capital

/-- C3 (amended): the *unrounded* running capital satisfies the exact
recurrence `capital_after(i) = capital_after(i-1) + pnl(i)` (threaded by
the loop, starting from the initial capital), and each trade's recorded
`capital` field is the 2-decimal rounding of that unrounded value.  The
recurrence on the *recorded* (rounded) values can fail by a cent — see
the counterexample. -/
theorem C3_capital_recurrence (s : List PricePoint) (cfg : Config) :
    ((execute_backtest s cfg).1 = (backtestGhost s cfg).map
      (fun g => (mkTrade cfg.risk_per_trade g.2.2 g.1 g.2.1).1)) ∧
    (∀ g, (backtestGhost s cfg).head? = some g →
      g.2.2 = cfg.initial_capital) ∧
    ((backtestGhost s cfg).Chain'
      (fun g g' => g'.2.2 = (mkTrade cfg.risk_per_trade g.2.2 g.1 g.2.1).2)) ∧
    (∀ g ∈ backtestGhost s cfg,
      (mkTrade cfg.risk_per_trade g.2.2 g.1 g.2.1).2 =
        g.2.2 + (g.2.1.close - g.1.close) *
          ((position_sie cfg.risk_per_trade g.2.2 g.1.atr g.1.close : ℤ) : ℚ) ∧
      ((mkTrade cfg.risk_per_trade g.2.2 g.1 g.2.1).1).capital =
        pyRound2 ((mkTrade cfg.risk_per_trade g.2.2 g.1 g.2.1).2)) := by
  refine ⟨pairFull_proj _ _ _ _ _, fun g h => pairFull_head _ _ _ _ _ g h,
    pairFull_chain _ _ _ _ _, fun g _ => ⟨rfl, rfl⟩⟩

/-- C10: the recorded trade dict stores the entry price, exit price,
pnl, pnl percentage and post-trade capital rounded to 2 decimals (and
`hold_days` as a whole number of days), while the loop threads the
*unrounded* running capital into the sizing and settlement of the next
trade. -/
theorem C10_rounded_records (s : List PricePoint) (cfg : Config) :
    ((execute_backtest s cfg).1 = (backtestGhost s cfg).map
      (fun g => (mkTrade cfg.risk_per_trade g.2.2 g.1 g.2.1).1)) ∧
    ((backtestGhost s cfg).Chain'
      (fun g g' => g'.2.2 = (mkTrade cfg.risk_per_trade g.2.2 g.1 g.2.1).2)) ∧
    (∀ g ∈ backtestGhost s cfg,
      ((mkTrade cfg.risk_per_trade g.2.2 g.1 g.2.1).1).buy_price =
        pyRound2 g.1.close ∧
      ((mkTrade cfg.risk_per_trade g.2.2 g.1 g.2.1).1).sell_price =
        pyRound2 g.2.1.close ∧
      ((mkTrade cfg.risk_per_trade g.2.2 g.1 g.2.1).1).position_sie =
        position_sie cfg.risk_per_trade g.2.2 g.1.atr g.1.close ∧
      ((mkTrade cfg.risk_per_trade g.2.2 g.1 g.2.1).1).profit_loss =
        pyRound2 ((g.2.1.close - g.1.close) *
          ((position_sie cfg.risk_per_trade g.2.2 g.1.atr g.1.close : ℤ) : ℚ)) ∧
      ((mkTrade cfg.risk_per_trade g.2.2 g.1 g.2.1).1).profit_pct =
        pyRound2 ((g.2.1.close - g.1.close) / g.1.close * 100) ∧
      ((mkTrade cfg.risk_per_trade g.2.2 g.1 g.2.1).1).hold_days =
        g.2.1.date - g.1.date ∧
      ((mkTrade cfg.risk_per_trade g.2.2 g.1 g.2.1).1).capital =
        pyRound2 (g.2.2 + (g.2.1.close - g.1.close) *
          ((position_sie cfg.risk_per_trade g.2.2 g.1.atr g.1.close : ℤ) : ℚ))) := by
  refine ⟨pairFull_proj _ _ _ _ _, pairFull_chain _ _ _ _ _,
    fun g _ => ⟨rfl, rfl, rfl, rfl, rfl, rfl, rfl⟩⟩

/-! # Counterexamples and witnesses for the claims -/

/-- C1 counterexample: on `series26` with `cfg26` the backtest pairs the
trades `(20, 23)`, `(22, 23)`, `(24, 25)` — trade 1 enters at bar 22,
*before* trade 0's exit at bar 23, and the bar-23 exit event is consumed
by two trades, refuting the non-overlap claim. -/
theorem C1_non_overlap_cex :
    ((execute_backtest series26 cfg26).1.map
        (fun tr => (tr.buy_date, tr.sell_date)) =
      [(20, 23), (22, 23), (24, 25)]) ∧
    ¬ (((execute_backtest series26 cfg26).1.getD 1 dTrade).buy_date >
       ((execute_backtest series26 cfg26).1.getD 0 dTrade).sell_date) := by
  rw [trades26]
  exact ⟨rfl, by decide⟩

/-- C1 witness: `series26` has strictly increasing dates and its trade
list satisfies the amended ordering properties. -/
theorem C1_trade_ordering_witness :
    (dates series26).Pairwise (· < ·) ∧
    ((∀ tr ∈ (execute_backtest series26 cfg26).1,
        tr.buy_date < tr.sell_date) ∧
     (((execute_backtest series26 cfg26).1.map
        (fun tr => tr.buy_date)).Pairwise (· < ·))) :=
  ⟨by decide, C1_trade_ordering series26 cfg26 (by decide)⟩

/-- C2 counterexample: on the signal sequence `[0, -1, 0]` the code
reports an entry event at bar 2 (a `Sell→Wait` transition, `diff = 1`)
although no bar transitions into `Buy`; on `[0, -1, 1]` the `Sell→Buy`
transition at bar 2 (`diff = 2`) produces no entry event although it is
a transition into `Buy`. -/
theorem C2_event_bars_cex :
    buyEventBars [0, -1, 0] = [2] ∧ specEntryBars [0, -1, 0] = [] ∧
    buyEventBars [0, -1, 1] = [] ∧ specEntryBars [0, -1, 1] = [2] := by
  decide

/-- A concrete signal sequence for the C2 witness. -/
def sigW : List ℤ := [0, 1, -1, 0]

/-- C2 witness: the amended characterisation applied to `sigW`. -/
theorem C2_event_characterisation_witness :
    (∀ x ∈ sigW, x = -1 ∨ x = 0 ∨ x = 1) ∧
    buyEventBars sigW = (List.range sigW.length).filter
      (fun t => decide (1 ≤ t) &&
        ((decide (sigW.getD (t - 1) 0 = 0) && decide (sigW.getD t 0 = 1)) ||
         (decide (sigW.getD (t - 1) 0 = -1) && decide (sigW.getD t 0 = 0)))) :=
  ⟨by decide, (C2_event_characterisation sigW (by decide)).1⟩

/-- C3 counterexample: on `series26` the recorded capital after trade 1
is `9039.01`, but the recorded capital after trade 0 plus trade 1's
recorded pnl is `9520.00 + (-481.00) = 9039.00` — the recurrence fails
on the rounded records. -/
theorem C3_recorded_capital_cex :
    ((execute_backtest series26 cfg26).1.getD 1 dTrade).capital ≠
      ((execute_backtest series26 cfg26).1.getD 0 dTrade).capital +
      ((execute_backtest series26 cfg26).1.getD 1 dTrade).profit_loss := by
  rw [trades26]
  show ((mkTrade (2/100) (2380001/250) ⟨22, 106, some (18/7)⟩
      (mkEvent series26 23)).1).capital ≠
    ((mkTrade (2/100) 10000 ⟨20, 103, some (29/14)⟩
      (mkEvent series26 23)).1).capital +
    ((mkTrade (2/100) (2380001/250) ⟨22, 106, some (18/7)⟩
      (mkEvent series26 23)).1).profit_loss
  rw [T0_capital, T1_capital, T1_profit_loss]
  norm_num

/-- C3 witness: the exact capital threading on the `series26` run. -/
theorem C3_capital_recurrence_witness :
    (backtestGhost series26 cfg26).Chain'
      (fun g g' => g'.2.2 = (mkTrade cfg26.risk_per_trade g.2.2 g.1 g.2.1).2) :=
  (C3_capital_recurrence series26 cfg26).2.2.1

/-- C4 witness: the Buy characterisation at bar 20 of `series26`. -/
theorem C4_signal_rule_witness :
    Signal series26 cfg26 20 = 1 ↔
      ((∃ a b, Short_MA series26 cfg26 20 = some a ∧
        Long_MA series26 cfg26 20 = some b ∧ b < a) ∧
       (∃ r, RSI series26 20 = some r ∧ 40 < r ∧ r < 70) ∧
       (∃ v, Volume_MA series26 20 = some v ∧
        v * (8/10) < volumeAt series26 20)) :=
  (C4_signal_rule series26 cfg26 20).1

/-- C5 counterexample: fourteen-plus constant bars give a complete RSI
window with average loss `0` *and* average gain `0`; the code's
`0.0/0.0` is `NaN`, so the RSI is undefined rather than `100`. -/
theorem C5_rsi_undefined_cex :
    avg_loss seriesFlat 14 = some 0 ∧ RSI seriesFlat 14 = none :=
  ⟨avg_loss_seriesFlat, RSI_seriesFlat⟩

/-- C5 witness: with zero average loss and positive average gain the
RSI is exactly 100. -/
theorem C5_rsi_100_witness :
    avg_loss seriesUp 14 = some 0 ∧ avg_gain seriesUp 14 = some (1/14) ∧
    (0:ℚ) < 1/14 ∧ RSI seriesUp 14 = some 100 :=
  ⟨avg_loss_seriesUp, avg_gain_seriesUp, by norm_num,
   C5_rsi_100 seriesUp 14 (1/14) avg_loss_seriesUp avg_gain_seriesUp
     (by norm_num)⟩

/-- C6 counterexample: with initial capital `1` the first trade of
`series26` is forced to one share at entry price `103`, so
`position_size × entry_price = 103 > 1` — the capital *is*
oversubscribed when the entry price exceeds it. -/
theorem C6_oversubscription_cex :
    ((execute_backtest series26 cfgCap1).1.head?.map
        (fun tr => ((tr.position_sie : ℚ) * tr.buy_price)) = some 103) ∧
    cfgCap1.initial_capital = 1 ∧ ¬ ((103 : ℚ) ≤ 1) := by
  refine ⟨?_, rfl, by norm_num⟩
  rw [backtest_cap1_head]
  show some (((position_sie (2/100) 1 (some (29/14)) 103 : ℤ) : ℚ) *
    pyRound2 103) = some 103
  rw [sie_cap1, pyRound2_103]
  norm_num

/-- C6 witness: at capital `10000`, ATR `2` and entry price `100` the
size is within the capital. -/
theorem C6_size_within_capital_witness :
    (0:ℚ) < 100 ∧ (100:ℚ) ≤ 10000 ∧
    ((position_sie (2/100) 10000 (some 2) 100 : ℤ) : ℚ) * 100 ≤ 10000 :=
  ⟨by norm_num, by norm_num,
   C6_size_within_capital (2/100) 10000 100 (some 2) (by norm_num)
     (by norm_num)⟩

/-- C7 witness: the spec's worked example — capital `10000`, risk `2%`,
ATR `2`, entry price `100` — yields the final size `50`, and the code's
size agrees with the spec's floor formula there. -/
theorem C7_position_size_witness :
    (0:ℚ) ≤ 2/100 ∧ (0:ℚ) < 100 ∧
    position_sie (2/100) 10000 (some 2) 100 =
      position_size_spec (2/100) 10000 (some 2) 100 ∧
    position_sie (2/100) 10000 (some 2) 100 = 50 :=
  ⟨by norm_num, by norm_num,
   C7_position_size (2/100) 10000 100 (some 2) (by norm_num) (by norm_num),
   by
    rw [position_sie_eval (2/100) 10000 2 100 50 100 (by norm_num)
      (pyInt_eval _ 50 (by norm_num) (by norm_num) (by norm_num))
      (pyInt_eval _ 100 (by norm_num) (by norm_num) (by norm_num))]
    decide⟩

/-- C8 counterexample: a 15-bar decreasing series with
`long_window = 15` satisfies `length < long_window + 1`, yet `Short_MA`
is defined at bar 13 and the last bar signals `Sell`, refuting "all
indicators remain undefined at every bar, every bar's Signal is Wait".
(Zero trades still hold — see the amended theorem.) -/
theorem C8_defined_indicator_cex :
    seriesDown.length < cfgDown.long_window + 1 ∧
    Short_MA seriesDown cfgDown 13 = some (187/2) ∧
    Signal seriesDown cfgDown 14 = -1 :=
  ⟨by decide, shortMA_seriesDown_13, sig_seriesDown_14⟩

/-- C8 witness: a 3-bar series under the default-shaped `cfg26`. -/
theorem C8_short_series_witness :
    series3.length < cfg26.long_window + 1 ∧
    ((execute_backtest series3 cfg26).1 = [] ∧
     (execute_backtest series3 cfg26).2 = cfg26.initial_capital ∧
     calculate_metrics cfg26 (execute_backtest series3 cfg26).1
       (execute_backtest series3 cfg26).2 = none ∧
     (∀ t, t + 1 < series3.length → Signal series3 cfg26 t = 0)) :=
  ⟨by decide, C8_short_series series3 cfg26 (by decide)⟩

/-- C9 witness: the pipeline applied twice to the same 3-bar input. -/
theorem C9_deterministic_witness :
    series3 = series3 ∧ cfg26 = cfg26 ∧
    runPipeline series3 cfg26 = runPipeline series3 cfg26 :=
  ⟨rfl, rfl, C9_deterministic series3 series3 cfg26 cfg26 rfl rfl⟩

/-- C10 witness: the ghost projection on the `series26` run. -/
theorem C10_rounded_records_witness :
    (execute_backtest series26 cfg26).1 = (backtestGhost series26 cfg26).map
      (fun g => (mkTrade cfg26.risk_per_trade g.2.2 g.1 g.2.1).1) :=
  (C10_rounded_records series26 cfg26).1

end TradingModel
